import Mathlib

/-!
The provider terraform-provider-metalcloud: instance array and infrastructure deployer.

A shallow embedding of `resource_metalcloud_instance_array.go` and
`resource_metalcloud_infrastructure_deployer.go`.

Conventions of the embedding:

* Go `int` is `Int`; the 64-bit width only matters where a conversion is made
  (`hash`, `Atoi`) and is explicit there.
* A Go `map[string]T` that is only indexed and assigned is a function
  `String → Option T`; `none` is the absent key.
* A failed type assertion or a nil dereference panics; a function that can panic
  returns `Option`, with `none` for the panic.
* `error` values are their messages.
-/

namespace Metalcloud

/-! ## Go values -/

/-- Dynamic values (`interface{}`) found in schema maps: the nil interface, `bool`,
`int` and `string`. -/
inductive Value where
  | nil
  | bool (b : Bool)
  | int (i : Int)
  | str (s : String)
deriving DecidableEq, Repr

/-- The type assertion `v.(string)`; indexing a map by an absent key yields the nil
interface, on which the assertion panics. -/
def assertString : Option Value → Option String
  | some (Value.str s) => some s
  | _ => none

/-- The type assertion `v.(int)`. -/
def assertInt : Option Value → Option Int
  | some (Value.int i) => some i
  | _ => none

/-- The type assertion `v.(bool)`. -/
def assertBool : Option Value → Option Bool
  | some (Value.bool b) => some b
  | _ => none

/-- A Go `map[string]T` that is only indexed and assigned. -/
abbrev GoMap (α : Type) := String → Option α

/-- The result of `make(map[string]T)`. -/
def GoMap.empty {α : Type} : GoMap α := fun _ => none

/-- The assignment `m[k] = v`. -/
def GoMap.set {α : Type} (m : GoMap α) (k : String) (v : α) : GoMap α :=
  fun k' => if k' = k then some v else m k'

/-- A `map[string]interface{}` holding one element of a schema set. -/
abbrev SchemaMap := GoMap Value

/-! ## Firewall rules -/

/-- The SDK struct `mc.FirewallRule`. -/
structure FirewallRule where
  FirewallRuleDescription : String
  FirewallRulePortRangeStart : Int
  FirewallRulePortRangeEnd : Int
  FirewallRuleSourceIPAddressRangeStart : String
  FirewallRuleSourceIPAddressRangeEnd : String
  FirewallRuleDestinationIPAddressRangeStart : String
  FirewallRuleDestinationIPAddressRangeEnd : String
  FirewallRuleProtocol : String
  FirewallRuleIPAddressType : String
  FirewallRuleEnabled : Bool
deriving DecidableEq, Repr

/-- The Go function `flattenFirewallRule`. -/
def flattenFirewallRule (fw : FirewallRule) : SchemaMap :=
  let d : SchemaMap := GoMap.empty
  let d := d.set "firewall_rule_description" (Value.str fw.FirewallRuleDescription)
  let d := d.set "firewall_rule_port_range_start" (Value.int fw.FirewallRulePortRangeStart)
  let d := d.set "firewall_rule_port_range_end" (Value.int fw.FirewallRulePortRangeEnd)
  let d := d.set "firewall_rule_source_ip_address_range_start"
    (Value.str fw.FirewallRuleSourceIPAddressRangeStart)
  let d := d.set "firewall_rule_source_ip_address_range_end"
    (Value.str fw.FirewallRuleSourceIPAddressRangeEnd)
  let d := d.set "firewall_rule_destination_ip_address_range_start"
    (Value.str fw.FirewallRuleDestinationIPAddressRangeStart)
  let d := d.set "firewall_rule_destination_ip_address_range_end"
    (Value.str fw.FirewallRuleDestinationIPAddressRangeEnd)
  let d := d.set "firewall_rule_protocol" (Value.str fw.FirewallRuleProtocol)
  let d := d.set "firewall_rule_ip_address_type" (Value.str fw.FirewallRuleIPAddressType)
  let d := d.set "firewall_rule_enabled" (Value.bool fw.FirewallRuleEnabled)
  d

/-- The Go function `expandFirewallRule`; `none` when a type assertion panics. -/
def expandFirewallRule (d : SchemaMap) : Option FirewallRule := do
  let description ← assertString (d "firewall_rule_description")
  let portStart ← assertInt (d "firewall_rule_port_range_start")
  let portEnd ← assertInt (d "firewall_rule_port_range_end")
  let srcStart ← assertString (d "firewall_rule_source_ip_address_range_start")
  let srcEnd ← assertString (d "firewall_rule_source_ip_address_range_end")
  let dstStart ← assertString (d "firewall_rule_destination_ip_address_range_start")
  let dstEnd ← assertString (d "firewall_rule_destination_ip_address_range_end")
  let protocol ← assertString (d "firewall_rule_protocol")
  let ipType ← assertString (d "firewall_rule_ip_address_type")
  let enabled ← assertBool (d "firewall_rule_enabled")
  pure {
    FirewallRuleDescription := description
    FirewallRulePortRangeStart := portStart
    FirewallRulePortRangeEnd := portEnd
    FirewallRuleSourceIPAddressRangeStart := srcStart
    FirewallRuleSourceIPAddressRangeEnd := srcEnd
    FirewallRuleDestinationIPAddressRangeStart := dstStart
    FirewallRuleDestinationIPAddressRangeEnd := dstEnd
    FirewallRuleProtocol := protocol
    FirewallRuleIPAddressType := ipType
    FirewallRuleEnabled := enabled }

/-- The keys of the schema `resourceFirewallRule`. -/
def firewallRuleKeys : List String :=
  ["firewall_rule_description", "firewall_rule_port_range_start",
   "firewall_rule_port_range_end", "firewall_rule_source_ip_address_range_start",
   "firewall_rule_source_ip_address_range_end",
   "firewall_rule_destination_ip_address_range_start",
   "firewall_rule_destination_ip_address_range_end", "firewall_rule_protocol",
   "firewall_rule_ip_address_type", "firewall_rule_enabled"]

/-- A schema map that holds exactly the ten keys of `resourceFirewallRule`, each with a
value of the type the schema declares. -/
def FirewallRuleMap (m : SchemaMap) : Prop :=
  (∀ k, k ∉ firewallRuleKeys → m k = none) ∧
  (∃ s, m "firewall_rule_description" = some (Value.str s)) ∧
  (∃ i, m "firewall_rule_port_range_start" = some (Value.int i)) ∧
  (∃ i, m "firewall_rule_port_range_end" = some (Value.int i)) ∧
  (∃ s, m "firewall_rule_source_ip_address_range_start" = some (Value.str s)) ∧
  (∃ s, m "firewall_rule_source_ip_address_range_end" = some (Value.str s)) ∧
  (∃ s, m "firewall_rule_destination_ip_address_range_start" = some (Value.str s)) ∧
  (∃ s, m "firewall_rule_destination_ip_address_range_end" = some (Value.str s)) ∧
  (∃ s, m "firewall_rule_protocol" = some (Value.str s)) ∧
  (∃ s, m "firewall_rule_ip_address_type" = some (Value.str s)) ∧
  (∃ b, m "firewall_rule_enabled" = some (Value.bool b))

/-- A rule that opens the HTTPS port, as a schema map. -/
def httpsRuleMap : SchemaMap := fun k =>
  if k = "firewall_rule_description" then some (Value.str "https")
  else if k = "firewall_rule_port_range_start" then some (Value.int 443)
  else if k = "firewall_rule_port_range_end" then some (Value.int 443)
  else if k = "firewall_rule_source_ip_address_range_start" then some (Value.str "0.0.0.0")
  else if k = "firewall_rule_source_ip_address_range_end" then
    some (Value.str "255.255.255.255")
  else if k = "firewall_rule_destination_ip_address_range_start" then some (Value.str "")
  else if k = "firewall_rule_destination_ip_address_range_end" then some (Value.str "")
  else if k = "firewall_rule_protocol" then some (Value.str "tcp")
  else if k = "firewall_rule_ip_address_type" then some (Value.str "ipv4")
  else if k = "firewall_rule_enabled" then some (Value.bool true)
  else none

/-! ## Hashing of set elements -/

/-- The constant `crc32.IEEE` of the Go standard library: the reversed IEEE polynomial. -/
def IEEE : Nat := 0xedb88320

/-- One entry of the table built by `crc32.simpleMakeTable`: eight shift-and-reduce
steps on a `uint32`. -/
def simpleTableEntry (poly i : Nat) : Nat :=
  (List.range 8).foldl
    (fun crc _ => if crc % 2 = 1 then (crc / 2) ^^^ poly else crc / 2) i

/-- The function `crc32.simpleUpdate` of the Go standard library on `uint32` values:
`crc = ^crc`, then `crc = tab[byte(crc)^v] ^ (crc >> 8)` for every byte, then `^crc`. -/
def simpleUpdate (crc : Nat) (poly : Nat) (p : List Nat) : Nat :=
  let crc := crc ^^^ 0xffffffff
  let crc := p.foldl (fun crc v => simpleTableEntry poly ((crc % 256) ^^^ v) ^^^ (crc / 256)) crc
  crc ^^^ 0xffffffff

/-- The function `crc32.ChecksumIEEE` of the Go standard library. -/
def ChecksumIEEE (p : List Nat) : Nat := simpleUpdate 0 IEEE p

/-- The conversion `[]byte(v)`: the UTF-8 bytes of a string. -/
def bytes (v : String) : List Nat := v.toUTF8.data.toList.map UInt8.toNat

/-- The conversion `int(x)` of a `uint32` on a platform whose `int` has 64 bits: the
value is reinterpreted in two's complement. -/
def intOfUint32 (x : Nat) : Int := ((x : Int) + 2 ^ 63) % 2 ^ 64 - 2 ^ 63

/-- The Go function `hash`. -/
def hash (v : String) : Int :=
  let hash := ChecksumIEEE (bytes v)
  intOfUint32 hash

/-- The function `strconv.Itoa`: the decimal text of an `int`. -/
def Itoa (i : Int) : String :=
  match i with
  | Int.ofNat n => Nat.repr n
  | Int.negSucc n => "-" ++ Nat.repr (n + 1)

/-- The function `unicode.ToLower` on one rune: explicit on ASCII, and on the other
runes the lower-case mapping of the Unicode tables, here `lowerCase`. -/
def unicodeToLower (lowerCase : Char → Char) (r : Char) : Char :=
  if r.toNat ≤ 0x7f then
    if 'A'.toNat ≤ r.toNat ∧ r.toNat ≤ 'Z'.toNat then Char.ofNat (r.toNat + ('a'.toNat - 'A'.toNat))
    else r
  else lowerCase r

/-- The function `strings.ToLower`: every rune mapped by `unicode.ToLower`. -/
def ToLower (lowerCase : Char → Char) (s : String) : String :=
  String.mk (s.data.map (unicodeToLower lowerCase))

/-- The Go function `interfaceToString`; `none` when a type assertion panics. -/
def interfaceToString (lowerCase : Char → Char) (i : SchemaMap) : Option String := do
  let instance_array_interface_index ← (assertInt (i "interface_index")).map Itoa
  let network_id ← (assertInt (i "network_id")).map Itoa
  let network_label ← assertString (i "network_label")
  let buf := ""
  let buf := buf ++ (ToLower lowerCase network_label ++ "-")
  let buf := buf ++ (ToLower lowerCase instance_array_interface_index ++ "-")
  let buf := buf ++ (ToLower lowerCase network_id ++ "-")
  pure buf

/-- The Go function `interfaceResourceHash`. -/
def interfaceResourceHash (lowerCase : Char → Char) (v : SchemaMap) : Option Int :=
  (interfaceToString lowerCase v).map hash

/-- An element of the `interface` set: interface 1 on the network "WAN" with id 5. -/
def wanInterfaceMap : SchemaMap := fun k =>
  if k = "interface_index" then some (Value.int 1)
  else if k = "network_label" then some (Value.str "WAN")
  else if k = "network_id" then some (Value.int 5)
  else none


/-! ## Instance arrays -/

/-- Dynamic values (`interface{}`) that hold custom variables: a scalar (the nil interface
included), a `[]interface{}`, a `map[string]interface{}` in the order in which `range`
visits it, or a `map[string]string`. -/
inductive Dyn where
  | scalar (v : Value)
  | slice (xs : List Value)
  | object (kvs : List (String × Value))
  | stringMap (m : GoMap String)

/-- The loop `for k, v := range m { out[k] = v.(string) }` into a fresh
`map[string]string`; `none` when an assertion panics. -/
def copyStringValues (kvs : List (String × Value)) : Option (GoMap String) :=
  kvs.foldlM (fun out kv => (assertString (some kv.2)).map (fun s => out.set kv.1 s))
    GoMap.empty

/-- The SDK struct `mc.InstanceArrayInterface`, with the fields this provider uses. -/
structure InstanceArrayInterface where
  InstanceArrayInterfaceID : Int
  InstanceArrayInterfaceIndex : Int
  NetworkID : Int
  InstanceArrayInterfaceLAGGIndexes : List Value
deriving DecidableEq, Repr

/-- The SDK struct `mc.InstanceArrayInterfaceOperation`, with the fields this provider
uses. -/
structure InstanceArrayInterfaceOperation where
  InstanceArrayInterfaceID : Int
  InstanceArrayInterfaceIndex : Int
  NetworkID : Int
  InstanceArrayInterfaceLAGGIndexes : List Value
deriving DecidableEq, Repr

/-- The SDK struct `mc.InstanceArrayOperation`, with the fields this provider uses. -/
structure InstanceArrayOperation where
  InstanceArrayID : Int
  InstanceArrayLabel : String
  InstanceArrayInstanceCount : Int
  InstanceArrayBootMethod : String
  InstanceArrayRAMGbytes : Int
  InstanceArrayProcessorCount : Int
  InstanceArrayProcessorCoreMHZ : Int
  InstanceArrayProcessorCoreCount : Int
  InstanceArrayDiskCount : Int
  InstanceArrayDiskSizeMBytes : Int
  InstanceArrayDiskTypes : List String
  ClusterID : Int
  InstanceArrayFirewallManaged : Bool
  InstanceArrayFirewallRules : List FirewallRule
  VolumeTemplateID : Int
  InstanceArrayAdditionalWanIPv4JSON : String
  InstanceArrayCustomVariables : Dyn
  InstanceArrayInterfaces : List InstanceArrayInterfaceOperation

/-- The SDK struct `mc.InstanceArray`, with the fields this provider uses;
`InstanceArrayOperation` is a pointer, `none` when nil. -/
structure InstanceArray where
  InstanceArrayID : Int
  InstanceArrayLabel : String
  InstanceArrayInstanceCount : Int
  InstanceArrayBootMethod : String
  InstanceArrayRAMGbytes : Int
  InstanceArrayProcessorCount : Int
  InstanceArrayProcessorCoreMHZ : Int
  InstanceArrayProcessorCoreCount : Int
  InstanceArrayDiskCount : Int
  InstanceArrayDiskSizeMBytes : Int
  InstanceArrayDiskTypes : List String
  ClusterID : Int
  InstanceArrayFirewallManaged : Bool
  InstanceArrayFirewallRules : List FirewallRule
  VolumeTemplateID : Int
  InstanceArrayAdditionalWanIPv4JSON : String
  InstanceArrayCustomVariables : Dyn
  InstanceArrayInterfaces : List InstanceArrayInterface
  InstanceArrayOperation : Option InstanceArrayOperation

/-- The zero value `var ia mc.InstanceArray`. -/
def InstanceArray.zero : InstanceArray where
  InstanceArrayID := 0
  InstanceArrayLabel := ""
  InstanceArrayInstanceCount := 0
  InstanceArrayBootMethod := ""
  InstanceArrayRAMGbytes := 0
  InstanceArrayProcessorCount := 0
  InstanceArrayProcessorCoreMHZ := 0
  InstanceArrayProcessorCoreCount := 0
  InstanceArrayDiskCount := 0
  InstanceArrayDiskSizeMBytes := 0
  InstanceArrayDiskTypes := []
  ClusterID := 0
  InstanceArrayFirewallManaged := false
  InstanceArrayFirewallRules := []
  VolumeTemplateID := 0
  InstanceArrayAdditionalWanIPv4JSON := ""
  InstanceArrayCustomVariables := Dyn.scalar Value.nil
  InstanceArrayInterfaces := []
  InstanceArrayOperation := none

/-- A `*schema.Set` of the Terraform SDK, given by the items it was built from
(`schema.NewSet(f, items)`) and read back by `List()`; how the SDK hashes and orders the
items is outside this provider. -/
structure SchemaSet where
  items : List SchemaMap

/-- The `*schema.ResourceData` of the resource `resourceInstanceArray`: the resource ID and
one field per attribute of the schema, of the type that `d.Get` returns for it. -/
structure InstanceArrayData where
  Id : String
  infrastructure_id : Int
  instance_array_id : Int
  instance_array_label : String
  instance_array_instance_count : Int
  instance_array_boot_method : String
  instance_array_ram_gbytes : Int
  instance_array_processor_count : Int
  instance_array_processor_core_mhz : Int
  instance_array_processor_core_count : Int
  instance_array_disk_count : Int
  instance_array_disk_size_mbytes : Int
  instance_array_additional_wan_ipv4_json : String
  instance_array_custom_variables : GoMap String
  instance_custom_variables : List (Int × GoMap String)
  volume_template_id : Int
  instance_array_firewall_managed : Bool
  firewall_rule : SchemaSet
  interface : SchemaSet
  instances : String

/-- The Go function `flattenInstanceArray`, whose returned error is always nil; `none`
when a type assertion on the custom variables panics. -/
def flattenInstanceArray (d : InstanceArrayData) (instanceArray : InstanceArray) :
    Option InstanceArrayData := do
  let d := { d with instance_array_id := instanceArray.InstanceArrayID }
  let d := { d with instance_array_label := instanceArray.InstanceArrayLabel }
  let d := { d with instance_array_instance_count := instanceArray.InstanceArrayInstanceCount }
  let d := { d with instance_array_boot_method := instanceArray.InstanceArrayBootMethod }
  let d := { d with instance_array_ram_gbytes := instanceArray.InstanceArrayRAMGbytes }
  let d := { d with instance_array_processor_count := instanceArray.InstanceArrayProcessorCount }
  let d := { d with
    instance_array_processor_core_mhz := instanceArray.InstanceArrayProcessorCoreMHZ }
  let d := { d with
    instance_array_processor_core_count := instanceArray.InstanceArrayProcessorCoreCount }
  let d := { d with instance_array_disk_count := instanceArray.InstanceArrayDiskCount }
  let d := { d with instance_array_disk_size_mbytes := instanceArray.InstanceArrayDiskSizeMBytes }
  let d := { d with volume_template_id := instanceArray.VolumeTemplateID }
  let d := { d with
    instance_array_firewall_managed := instanceArray.InstanceArrayFirewallManaged }
  let d := { d with
    instance_array_additional_wan_ipv4_json := instanceArray.InstanceArrayAdditionalWanIPv4JSON }
  /- INSTANCE ARRAY CUSTOM VARIABLES -/
  let d ← match instanceArray.InstanceArrayCustomVariables with
    | Dyn.slice _ => some { d with instance_array_custom_variables := GoMap.empty }
    | Dyn.object kvs => do
      let iacv ← copyStringValues kvs
      some { d with instance_array_custom_variables := iacv }
    | _ => none
  /- FIREWALL RULES -/
  let fwRules : List SchemaMap :=
    instanceArray.InstanceArrayFirewallRules.foldl
      (fun fwRules fw => fwRules ++ [flattenFirewallRule fw]) []
  let d := if fwRules.length > 0 then { d with firewall_rule := SchemaSet.mk fwRules } else d
  pure d

/-- The Go function `expandInstanceArray`; `d.Get` never returns nil for a key of the
schema, so both nil checks pass. `none` when `expandFirewallRule` panics. -/
def expandInstanceArray (d : InstanceArrayData) : Option InstanceArray := do
  let ia := InstanceArray.zero
  let ia := { ia with InstanceArrayID := d.instance_array_id }
  let ia := { ia with InstanceArrayLabel := d.instance_array_label }
  let ia := { ia with InstanceArrayInstanceCount := d.instance_array_instance_count }
  let ia := { ia with InstanceArrayBootMethod := d.instance_array_boot_method }
  let ia := { ia with InstanceArrayRAMGbytes := d.instance_array_ram_gbytes }
  let ia := { ia with InstanceArrayProcessorCount := d.instance_array_processor_count }
  let ia := { ia with InstanceArrayProcessorCoreMHZ := d.instance_array_processor_core_mhz }
  let ia := { ia with InstanceArrayProcessorCoreCount := d.instance_array_processor_core_count }
  let ia := { ia with InstanceArrayDiskCount := d.instance_array_disk_count }
  let ia := { ia with InstanceArrayDiskSizeMBytes := d.instance_array_disk_size_mbytes }
  let ia := { ia with VolumeTemplateID := d.volume_template_id }
  let ia := { ia with
    InstanceArrayAdditionalWanIPv4JSON := d.instance_array_additional_wan_ipv4_json }
  let ia := { ia with InstanceArrayFirewallManaged := d.instance_array_firewall_managed }
  let fwRules ← d.firewall_rule.items.foldlM
    (fun fwRules fwMap => (expandFirewallRule fwMap).map (fun fw => fwRules ++ [fw])) []
  let ia := { ia with InstanceArrayFirewallRules := fwRules }
  let iacv : GoMap String := fun k => d.instance_array_custom_variables k
  let ia := { ia with InstanceArrayCustomVariables := Dyn.stringMap iacv }
  pure ia

/-- The Go function `copyInstanceArrayToOperation`, returning the operation that `iao`
points to after the call. -/
def copyInstanceArrayToOperation (ia : InstanceArray) (iao : InstanceArrayOperation) :
    InstanceArrayOperation :=
  let iao := { iao with InstanceArrayID := ia.InstanceArrayID }
  let iao := { iao with InstanceArrayLabel := ia.InstanceArrayLabel }
  let iao := { iao with InstanceArrayBootMethod := ia.InstanceArrayBootMethod }
  let iao := { iao with InstanceArrayInstanceCount := ia.InstanceArrayInstanceCount }
  let iao := { iao with InstanceArrayRAMGbytes := ia.InstanceArrayRAMGbytes }
  let iao := { iao with InstanceArrayProcessorCount := ia.InstanceArrayProcessorCount }
  let iao := { iao with InstanceArrayProcessorCoreMHZ := ia.InstanceArrayProcessorCoreMHZ }
  let iao := { iao with InstanceArrayDiskCount := ia.InstanceArrayDiskCount }
  let iao := { iao with InstanceArrayDiskSizeMBytes := ia.InstanceArrayDiskSizeMBytes }
  let iao := { iao with InstanceArrayDiskTypes := ia.InstanceArrayDiskTypes }
  let iao := { iao with ClusterID := ia.ClusterID }
  let iao := { iao with InstanceArrayFirewallManaged := ia.InstanceArrayFirewallManaged }
  let iao := { iao with InstanceArrayFirewallRules := ia.InstanceArrayFirewallRules }
  let iao := { iao with VolumeTemplateID := ia.VolumeTemplateID }
  let iao := { iao with
    InstanceArrayAdditionalWanIPv4JSON := ia.InstanceArrayAdditionalWanIPv4JSON }
  let iao := { iao with InstanceArrayCustomVariables := ia.InstanceArrayCustomVariables }
  iao

/-- The Go function `copyInstanceArrayInterfaceToOperation`, returning the operation that
`io` points to after the call. -/
def copyInstanceArrayInterfaceToOperation (i : InstanceArrayInterface)
    (io : InstanceArrayInterfaceOperation) : InstanceArrayInterfaceOperation :=
  let io := { io with InstanceArrayInterfaceLAGGIndexes := i.InstanceArrayInterfaceLAGGIndexes }
  let io := { io with InstanceArrayInterfaceIndex := i.InstanceArrayInterfaceIndex }
  let io := { io with NetworkID := i.NetworkID }
  io


/-! ## Diagnostics and conversions -/

/-- The severities `diag.Error` and `diag.Warning` of the Terraform SDK. -/
inductive Severity where
  | Error
  | Warning
deriving DecidableEq, Repr

/-- The struct `diag.Diagnostic` of the Terraform SDK. -/
structure Diagnostic where
  Severity : Severity
  Summary : String
  Detail : String
deriving DecidableEq, Repr

/-- The type `diag.Diagnostics`; the nil value is the empty list. -/
abbrev Diagnostics := List Diagnostic

/-- The function `diag.FromErr` on a non-nil error. -/
def diag.FromErr (err : String) : Diagnostics :=
  [{ Severity := Severity.Error, Summary := err, Detail := "" }]

/-- The function `diag.Errorf`, applied to the formatted message. -/
def diag.Errorf (msg : String) : Diagnostics :=
  [{ Severity := Severity.Error, Summary := msg, Detail := "" }]

/-- The method `Diagnostics.HasError`. -/
def Diagnostics.HasError (diags : Diagnostics) : Bool :=
  diags.any (fun d => d.Severity == Severity.Error)

/-- The value of a non-empty run of ASCII digits. -/
def parseDigits (cs : List Char) : Option Nat :=
  if cs.isEmpty then none
  else cs.foldlM (fun n c => if c.isDigit then some (n * 10 + (c.toNat - '0'.toNat)) else none) 0

/-- The function `strconv.Atoi` for a 64-bit `int`: an optional sign and decimal digits,
within the range of `int`. The error is its message; the input is put between
quotation marks as it is (Go also escapes special characters in it). -/
def Atoi (s : String) : Except String Int :=
  let signed : Bool × List Char :=
    match s.data with
    | '-' :: rest => (true, rest)
    | '+' :: rest => (false, rest)
    | rest => (false, rest)
  match parseDigits signed.2 with
  | none => Except.error ("strconv.Atoi: parsing \"" ++ s ++ "\": invalid syntax")
  | some n =>
    let v : Int := if signed.1 then -(n : Int) else (n : Int)
    if -(2 : Int) ^ 63 ≤ v ∧ v < (2 : Int) ^ 63 then Except.ok v
    else Except.error ("strconv.Atoi: parsing \"" ++ s ++ "\": value out of range")

/-! ## Updating an instance array -/

/-- The loop of `resourceInstanceArrayUpdate` under the comment "update interface
operations", on the slice `retIA.InstanceArrayOperation.InstanceArrayInterfaces`; the
result is that slice after the loop. The range variable `opIntf` is a copy of the element,
and `copyInstanceArrayInterfaceToOperation` is handed `&opIntf`, the address of the copy:
the copy is updated and dropped at the end of the iteration. -/
def updateInterfaceOperations (interfaces : List InstanceArrayInterface)
    (operations : List InstanceArrayInterfaceOperation) :
    List InstanceArrayInterfaceOperation :=
  interfaces.foldl
    (fun slice intf =>
      slice.foldl
        (fun slice opIntf =>
          let _opIntf :=
            if opIntf.InstanceArrayInterfaceID = intf.InstanceArrayInterfaceID then
              copyInstanceArrayInterfaceToOperation intf opIntf
            else opIntf
          slice)
        slice)
    operations

/-- What `resourceInstanceArrayUpdate` has done when it reaches `client.InstanceArrayEdit`:
it returned diagnostics before, or it makes the call with these arguments. -/
inductive EditRequest where
  | returned (diags : Diagnostics)
  | InstanceArrayEdit (id : Int) (operation : InstanceArrayOperation)
      (bSwapExistingInstancesHardware bkeepDetachingDrives : Bool)

/-- The Go function `resourceInstanceArrayUpdate` from its start to its call of
`client.InstanceArrayEdit`; `InstanceArrayGet` is the client's answer. `none` when the
function panics (a failed assertion in `expandInstanceArray`, a nil operation). -/
def resourceInstanceArrayUpdate.request (d : InstanceArrayData)
    (InstanceArrayGet : Int → Except String InstanceArray) : Option EditRequest :=
  match Atoi d.Id with
  | Except.error err => some (EditRequest.returned (diag.FromErr err))
  | Except.ok id =>
    match InstanceArrayGet id with
    | Except.error err => some (EditRequest.returned (diag.FromErr err))
    | Except.ok retIA => do
      let ia ← expandInstanceArray d
      let operation ← retIA.InstanceArrayOperation
      -- update interface operations
      let operation := { operation with
        InstanceArrayInterfaces :=
          updateInterfaceOperations ia.InstanceArrayInterfaces operation.InstanceArrayInterfaces }
      -- update the main operation object
      let operation := copyInstanceArrayToOperation ia operation
      let bSwapExistingInstancesHardware := false
      let bkeepDetachingDrives := false
      pure (EditRequest.InstanceArrayEdit id operation bSwapExistingInstancesHardware
        bkeepDetachingDrives)


/-! ## Sample data -/

/-- The firewall rule of `httpsRuleMap` as the SDK struct. -/
def httpsRule : FirewallRule where
  FirewallRuleDescription := "https"
  FirewallRulePortRangeStart := 443
  FirewallRulePortRangeEnd := 443
  FirewallRuleSourceIPAddressRangeStart := "0.0.0.0"
  FirewallRuleSourceIPAddressRangeEnd := "255.255.255.255"
  FirewallRuleDestinationIPAddressRangeStart := ""
  FirewallRuleDestinationIPAddressRangeEnd := ""
  FirewallRuleProtocol := "tcp"
  FirewallRuleIPAddressType := "ipv4"
  FirewallRuleEnabled := true

/-- A resource state of an instance array with ID 7: eight cores per processor are
configured, one firewall rule and one interface. -/
def webState : InstanceArrayData where
  Id := "7"
  infrastructure_id := 3
  instance_array_id := 7
  instance_array_label := "web"
  instance_array_instance_count := 2
  instance_array_boot_method := "pxe_iscsi"
  instance_array_ram_gbytes := 16
  instance_array_processor_count := 1
  instance_array_processor_core_mhz := 2000
  instance_array_processor_core_count := 8
  instance_array_disk_count := 1
  instance_array_disk_size_mbytes := 40960
  instance_array_additional_wan_ipv4_json := ""
  instance_array_custom_variables := GoMap.empty
  instance_custom_variables := []
  volume_template_id := 0
  instance_array_firewall_managed := true
  firewall_rule := SchemaSet.mk [httpsRuleMap]
  interface := SchemaSet.mk [wanInterfaceMap]
  instances := ""

/-- The operation object of the server's instance array 7: four cores per processor and
one interface operation, with index 0 and no network. -/
def webOperation : InstanceArrayOperation where
  InstanceArrayID := 7
  InstanceArrayLabel := "web"
  InstanceArrayInstanceCount := 2
  InstanceArrayBootMethod := "pxe_iscsi"
  InstanceArrayRAMGbytes := 16
  InstanceArrayProcessorCount := 1
  InstanceArrayProcessorCoreMHZ := 2000
  InstanceArrayProcessorCoreCount := 4
  InstanceArrayDiskCount := 1
  InstanceArrayDiskSizeMBytes := 40960
  InstanceArrayDiskTypes := []
  ClusterID := 0
  InstanceArrayFirewallManaged := true
  InstanceArrayFirewallRules := []
  VolumeTemplateID := 0
  InstanceArrayAdditionalWanIPv4JSON := ""
  InstanceArrayCustomVariables := Dyn.slice []
  InstanceArrayInterfaces :=
    [{ InstanceArrayInterfaceID := 11, InstanceArrayInterfaceIndex := 0, NetworkID := 0,
       InstanceArrayInterfaceLAGGIndexes := [] }]

/-- The server's instance array 7: no firewall rules, no custom variables. -/
def webArray : InstanceArray where
  InstanceArrayID := 7
  InstanceArrayLabel := "web"
  InstanceArrayInstanceCount := 2
  InstanceArrayBootMethod := "pxe_iscsi"
  InstanceArrayRAMGbytes := 16
  InstanceArrayProcessorCount := 1
  InstanceArrayProcessorCoreMHZ := 2000
  InstanceArrayProcessorCoreCount := 4
  InstanceArrayDiskCount := 1
  InstanceArrayDiskSizeMBytes := 40960
  InstanceArrayDiskTypes := []
  ClusterID := 0
  InstanceArrayFirewallManaged := true
  InstanceArrayFirewallRules := []
  VolumeTemplateID := 0
  InstanceArrayAdditionalWanIPv4JSON := ""
  InstanceArrayCustomVariables := Dyn.slice []
  InstanceArrayInterfaces :=
    [{ InstanceArrayInterfaceID := 11, InstanceArrayInterfaceIndex := 0, NetworkID := 0,
       InstanceArrayInterfaceLAGGIndexes := [] }]
  InstanceArrayOperation := some webOperation

/-- The server's instance array 7 with one firewall rule. -/
def webArrayWithRule : InstanceArray :=
  { webArray with InstanceArrayFirewallRules := [httpsRule] }

/-- A client whose `InstanceArrayGet` answers with `webArray`. -/
def webGet : Int → Except String InstanceArray := fun _ => Except.ok webArray

/-- The operation of a request, when the request is a call of `InstanceArrayEdit`. -/
def EditRequest.operation? : EditRequest → Option InstanceArrayOperation
  | EditRequest.InstanceArrayEdit _ operation _ _ => some operation
  | EditRequest.returned _ => none

/-- Custom variables as the server's JSON decodes to: an array, or an object whose
values are all strings. -/
def DecodedCustomVariables : Dyn → Prop
  | Dyn.slice _ => True
  | Dyn.object kvs => ∀ kv ∈ kvs, ∃ s, kv.2 = Value.str s
  | _ => False


/-! ## The infrastructure deployer -/

/-- The constant `DEPLOY_STATUS_FINISHED`. -/
def DEPLOY_STATUS_FINISHED : String := "finished"

/-- The constant `DEPLOY_STATUS_ONGOING`. -/
def DEPLOY_STATUS_ONGOING : String := "ongoing"

/-- The constant `DEPLOY_STATUS_DELETED`. -/
def DEPLOY_STATUS_DELETED : String := "deleted"

/-- The constant `DEPLOY_STATUS_NOT_STARTED`. -/
def DEPLOY_STATUS_NOT_STARTED : String := "not_started"

/-- The constant `SERVICE_STATUS_ACTIVE`. -/
def SERVICE_STATUS_ACTIVE : String := "active"

/-- The SDK struct `mc.ShutdownOptions`. -/
structure ShutdownOptions where
  HardShutdownAfterTimeout : Bool
  AttemptSoftShutdown : Bool
  SoftShutdownTimeoutSeconds : Int
deriving DecidableEq, Repr

/-- The SDK struct `mc.InfrastructureOperation`, with the fields this provider uses. -/
structure InfrastructureOperation where
  InfrastructureDeployStatus : String
  InfrastructureCustomVariables : Dyn

/-- The SDK struct `mc.Infrastructure`, with the fields this provider uses. -/
structure Infrastructure where
  InfrastructureID : Int
  InfrastructureServiceStatus : String
  InfrastructureCustomVariables : Dyn
  InfrastructureOperation : InfrastructureOperation

/-- The `*schema.ResourceData` of the resource `ResourceInfrastructureDeployer`: the
resource ID and one field per attribute of the schema, of the type that `d.Get` returns
for it. Three more fields stand for what the Terraform SDK answers:
`HasChange_infrastructure_custom_variables` for
`d.HasChange("infrastructure_custom_variables")`, `Get_id_nil` for `d.Get("id") == nil`,
and `TimeoutUpdate` for `d.Timeout(schema.TimeoutUpdate)`, counted in the refreshes that
`WaitForState` makes before it gives up. -/
structure DeployerData where
  Id : String
  infrastructure_id : Int
  infrastructure_custom_variables : GoMap String
  infrastructure_service_status : String
  prevent_deploy : Bool
  hard_shutdown_after_timeout : Bool
  attempt_soft_shutdown : Bool
  soft_shutdown_timeout_seconds : Int
  allow_data_loss : Bool
  skip_ansible : Bool
  await_deploy_finished : Bool
  await_delete_finished : Bool
  keep_infrastructure_on_resource_destroy : Bool
  edited : Bool
  HasChange_infrastructure_custom_variables : Bool
  Get_id_nil : Bool
  TimeoutUpdate : Nat

/-- The method `d.SetId(v)`. -/
def DeployerData.SetId (d : DeployerData) (v : String) : DeployerData := { d with Id := v }

/-- The Go function `resourceInfrastructureDeployerCustomizeDiff`. The `*schema.ResourceDiff`
is given by the planned values of the attributes, which `d.Get` reads and `d.SetNew`
writes; the second component is the returned error. -/
def resourceInfrastructureDeployerCustomizeDiff (d : DeployerData) :
    DeployerData × Option String :=
  let d := if !d.prevent_deploy then { d with edited := true } else d
  (d, none)

/-- The calls that leave the provider: the methods of the SDK client, and
`WaitForState` of the Terraform SDK. -/
inductive Call where
  | InfrastructureGet (infrastructureID : Int)
  | InfrastructureEdit (infrastructureID : Int) (operation : InfrastructureOperation)
  | InfrastructureDeploy (infrastructureID : Int) (shutDownOptions : ShutdownOptions)
      (allowDataLoss skipAnsible : Bool)
  | InfrastructureDelete (infrastructureID : Int)
  | WaitForState (target : String)

/-- Whether a call is `InfrastructureDeploy`. -/
def Call.isInfrastructureDeploy : Call → Bool
  | Call.InfrastructureDeploy _ _ _ _ => true
  | _ => false

/-- Whether a call is `InfrastructureDelete`. -/
def Call.isInfrastructureDelete : Call → Bool
  | Call.InfrastructureDelete _ => true
  | _ => false

/-- Whether a call is `WaitForState`. -/
def Call.isWaitForState : Call → Bool
  | Call.WaitForState _ => true
  | _ => false

/-- The SDK client `*mc.Client` over a server with states `σ`: each method answers from
the state of the server and changes it. A failed call has an error and no result. -/
structure Client (σ : Type) where
  InfrastructureGet : Int → σ → Except String Infrastructure × σ
  InfrastructureEdit : Int → InfrastructureOperation → σ → Except String Infrastructure × σ
  InfrastructureDeploy : Int → ShutdownOptions → Bool → Bool → σ → Option String × σ
  InfrastructureDelete : Int → σ → Option String × σ

/-- The server together with the log of the calls made so far, oldest first; each entry
holds the resource data as it is when the call is made. -/
structure World (σ : Type) where
  server : σ
  calls : List (Call × DeployerData)

/-- The world before any call. -/
def World.start {σ : Type} (server : σ) : World σ := { server := server, calls := [] }

/-- The call `client.InfrastructureGet(infrastructureID)`, logged. -/
def callInfrastructureGet {σ : Type} (client : Client σ) (d : DeployerData)
    (infrastructureID : Int) (w : World σ) : Except String Infrastructure × World σ :=
  let r := client.InfrastructureGet infrastructureID w.server
  (r.1, { server := r.2, calls := w.calls ++ [(Call.InfrastructureGet infrastructureID, d)] })

/-- The call `client.InfrastructureEdit(infrastructureID, operation)`, logged. -/
def callInfrastructureEdit {σ : Type} (client : Client σ) (d : DeployerData)
    (infrastructureID : Int) (operation : InfrastructureOperation) (w : World σ) :
    Except String Infrastructure × World σ :=
  let r := client.InfrastructureEdit infrastructureID operation w.server
  (r.1, { server := r.2,
          calls := w.calls ++ [(Call.InfrastructureEdit infrastructureID operation, d)] })

/-- The call `client.InfrastructureDeploy(...)`, logged. -/
def callInfrastructureDeploy {σ : Type} (client : Client σ) (d : DeployerData)
    (infrastructureID : Int) (shutDownOptions : ShutdownOptions)
    (allowDataLoss skipAnsible : Bool) (w : World σ) : Option String × World σ :=
  let r := client.InfrastructureDeploy infrastructureID shutDownOptions allowDataLoss
    skipAnsible w.server
  (r.1, { server := r.2,
          calls := w.calls ++
            [(Call.InfrastructureDeploy infrastructureID shutDownOptions allowDataLoss
                skipAnsible, d)] })

/-- The call `client.InfrastructureDelete(infrastructureID)`, logged. -/
def callInfrastructureDelete {σ : Type} (client : Client σ) (d : DeployerData)
    (infrastructureID : Int) (w : World σ) : Option String × World σ :=
  let r := client.InfrastructureDelete infrastructureID w.server
  (r.1, { server := r.2,
          calls := w.calls ++ [(Call.InfrastructureDelete infrastructureID, d)] })

/-- The Go function `resourceInfrastructureDeployerRead`: the returned diagnostics and the
resource data after the call, `none` when a type assertion on the custom variables panics.
`d.Set` of a `map[string]string` on this attribute does not fail. -/
def resourceInfrastructureDeployerRead {σ : Type} (client : Client σ) (d : DeployerData)
    (w : World σ) : Option (Diagnostics × DeployerData) × World σ :=
  let infrastructure_id := d.infrastructure_id
  match callInfrastructureGet client d infrastructure_id w with
  | (Except.error err, w) => (some (diag.FromErr err, d), w)
  | (Except.ok infrastructure, w) =>
    let d := { d with
      infrastructure_service_status := infrastructure.InfrastructureServiceStatus }
    match infrastructure.InfrastructureCustomVariables with
    | Dyn.slice _ =>
      (some ([], { d with infrastructure_custom_variables := GoMap.empty }), w)
    | Dyn.object kvs =>
      match copyStringValues kvs with
      | none => (none, w)
      | some icv => (some ([], { d with infrastructure_custom_variables := icv }), w)
    | _ => (none, w)

/-- The Go function `updateInfrastructureCustomVariables`: the returned diagnostics,
`none` when it panics. After a failed `InfrastructureGet` the value of `diag.FromErr(err)`
is dropped and the nil `infrastructure` is dereferenced. -/
def updateInfrastructureCustomVariables {σ : Type} (client : Client σ) (d : DeployerData)
    (infrastructure_id : Int) (w : World σ) : Option Diagnostics × World σ :=
  if d.HasChange_infrastructure_custom_variables || d.Get_id_nil then
    let cvIntf := d.infrastructure_custom_variables
    match callInfrastructureGet client d infrastructure_id w with
    | (Except.error err, w) =>
      let _dropped := diag.FromErr err
      (none, w)
    | (Except.ok infrastructure, w) =>
      let operation := infrastructure.InfrastructureOperation
      let cv : GoMap String := fun k => cvIntf k
      let operation := { operation with InfrastructureCustomVariables := Dyn.stringMap cv }
      match callInfrastructureEdit client d infrastructure_id operation w with
      | (Except.error err, w) => (some (diag.FromErr err), w)
      | (Except.ok _, w) => (some [], w)
  else (some [], w)

/-- The Go function `deployInfrastructure`: the returned error. -/
def deployInfrastructure {σ : Type} (client : Client σ) (infrastructureID : Int)
    (d : DeployerData) (w : World σ) : Option String × World σ :=
  let shutDownOptions : ShutdownOptions :=
    { HardShutdownAfterTimeout := d.hard_shutdown_after_timeout
      AttemptSoftShutdown := d.attempt_soft_shutdown
      SoftShutdownTimeoutSeconds := d.soft_shutdown_timeout_seconds }
  callInfrastructureDeploy client d infrastructureID shutDownOptions d.allow_data_loss
    d.skip_ansible w


/-- The first value that the refresh function of `waitForInfrastructureFinished` returns:
the integer 0 or the response of the client. -/
inductive RefreshValue where
  | zero
  | resp (infrastructure : Infrastructure)

/-- The three values returned by a refresh function (`resource.StateRefreshFunc`). -/
structure RefreshResult where
  result : RefreshValue
  state : String
  err : Option String

/-- The struct `resource.StateChangeConf` of the Terraform SDK, with the fields that
decide the outcome; `Timeout` is counted in refreshes. -/
structure StateChangeConf (σ : Type) where
  Pending : List String
  Target : List String
  Refresh : World σ → RefreshResult × World σ
  Timeout : Nat

/-- The polling loop of `StateChangeConf.WaitForState` with `ContinuousTargetOccurence: 1`
and refresh results that are never nil: an error of the refresh ends the wait with that
error, a target state ends it with success, a pending state goes on to the next refresh,
any other state is an error, and so is running out of refreshes. The messages of the
errors of the SDK itself are abridged. -/
def StateChangeConf.poll {σ : Type} (conf : StateChangeConf σ) :
    Nat → World σ → Option String × World σ
  | 0, w => (some "timeout while waiting for state", w)
  | n + 1, w =>
    match conf.Refresh w with
    | (r, w) =>
      match r.err with
      | some err => (some err, w)
      | none =>
        if r.state ∈ conf.Target then (none, w)
        else if r.state ∈ conf.Pending then conf.poll n w
        else (some ("unexpected state '" ++ r.state ++ "'"), w)

/-- The refresh function that `waitForInfrastructureFinished` hands to the SDK. -/
def waitForInfrastructureFinished.Refresh {σ : Type} (client : Client σ) (d : DeployerData)
    (infrastructureID : Int) (targetStatus : String) (w : World σ) :
    RefreshResult × World σ :=
  match callInfrastructureGet client d infrastructureID w with
  | (Except.error err, w) =>
    if targetStatus = DEPLOY_STATUS_DELETED then
      ({ result := RefreshValue.zero, state := targetStatus, err := none }, w)
    else ({ result := RefreshValue.zero, state := "", err := some err }, w)
  | (Except.ok resp, w) =>
    ({ result := RefreshValue.resp resp,
       state := resp.InfrastructureOperation.InfrastructureDeployStatus, err := none }, w)

/-- The configuration that `waitForInfrastructureFinished` builds. -/
def waitForInfrastructureFinished.createStateConf {σ : Type} (client : Client σ)
    (d : DeployerData) (infrastructureID : Int) (timeout : Nat) (targetStatus : String) :
    StateChangeConf σ where
  Pending := [DEPLOY_STATUS_NOT_STARTED, DEPLOY_STATUS_ONGOING]
  Target := [targetStatus]
  Refresh := waitForInfrastructureFinished.Refresh client d infrastructureID targetStatus
  Timeout := timeout

/-- The Go function `waitForInfrastructureFinished`: the returned diagnostics and the
resource data after the call, `none` when the read at its end panics. -/
def waitForInfrastructureFinished {σ : Type} (client : Client σ) (infrastructureID : Int)
    (d : DeployerData) (timeout : Nat) (targetStatus : String) (w : World σ) :
    Option (Diagnostics × DeployerData) × World σ :=
  let createStateConf :=
    waitForInfrastructureFinished.createStateConf client d infrastructureID timeout
      targetStatus
  let w := { w with calls := w.calls ++ [(Call.WaitForState targetStatus, d)] }
  match createStateConf.poll createStateConf.Timeout w with
  | (some err, w) =>
    (some (diag.Errorf
      ("Error waiting for example instance (" ++ d.Id ++ ") to be created: " ++ err), d), w)
  | (none, w) =>
    if targetStatus = DEPLOY_STATUS_DELETED then (some ([], d), w)
    else resourceInfrastructureDeployerRead client d w

/-- The end of `resourceInfrastructureDeployerUpdate`: the read, whose diagnostics are
returned when they hold an error, and nil otherwise. -/
def resourceInfrastructureDeployerUpdate.read {σ : Type} (client : Client σ)
    (d : DeployerData) (w : World σ) : Option (Diagnostics × DeployerData) × World σ :=
  match resourceInfrastructureDeployerRead client d w with
  | (none, w) => (none, w)
  | (some (dg, d), w) => if dg.HasError then (some (dg, d), w) else (some ([], d), w)

/-- The Go function `resourceInfrastructureDeployerUpdate`: the returned diagnostics and
the resource data after the call, `none` when it panics. -/
def resourceInfrastructureDeployerUpdate {σ : Type} (client : Client σ) (d : DeployerData)
    (w : World σ) : Option (Diagnostics × DeployerData) × World σ :=
  let infrastructure_id := d.infrastructure_id
  match Atoi d.Id with
  | Except.error err => (some (diag.FromErr err, d), w)
  | Except.ok id =>
    let d := if id ≠ infrastructure_id then d.SetId (Itoa infrastructure_id) else d
    let needsDeploy := d.edited
    let preventDeploy := d.prevent_deploy
    match updateInfrastructureCustomVariables client d infrastructure_id w with
    | (none, w) => (none, w)
    | (some _, w) =>
      -- This is where the magic happens.
      if needsDeploy && !preventDeploy then
        let diags : Diagnostics := []
        let d := { d with edited := false }
        match deployInfrastructure client infrastructure_id d w with
        | (some err, w) =>
          match resourceInfrastructureDeployerRead client d w with
          | (none, w) => (none, w)
          | (some (dg, d), w) =>
            if dg.HasError then (some (dg, d), w)
            else
              let diags := diags ++ [{
                Severity := Severity.Warning
                Summary := "The deploy could not finish for infrastructure #" ++
                  Itoa infrastructure_id ++ ". Correct the configuration and try again."
                Detail := "The deploy encountered the following error: " ++ err ++ "." }]
              (some (diags, d), w)
        | (none, w) =>
          if d.await_deploy_finished then
            waitForInfrastructureFinished client infrastructure_id d d.TimeoutUpdate
              DEPLOY_STATUS_FINISHED w
          else resourceInfrastructureDeployerUpdate.read client d w
      else resourceInfrastructureDeployerUpdate.read client d w

/-- The Go function `resourceInfrastructureDeployerDelete`: the returned diagnostics and
the resource data after the call. The check of `keep_infrastructure_on_resource_destroy`
is commented out in the source. -/
def resourceInfrastructureDeployerDelete {σ : Type} (client : Client σ) (d : DeployerData)
    (w : World σ) : Option (Diagnostics × DeployerData) × World σ :=
  match Atoi d.Id with
  | Except.error err => (some (diag.FromErr err, d), w)
  | Except.ok infrastructureID =>
    match callInfrastructureDelete client d infrastructureID w with
    | (some err, w) => (some (diag.FromErr err, d), w)
    | (none, w) =>
      let preventDeploy := d.prevent_deploy
      let serviceStatus := d.infrastructure_service_status
      if preventDeploy = false ∧ serviceStatus = SERVICE_STATUS_ACTIVE then
        match deployInfrastructure client infrastructureID d w with
        | (some err, w) => (some (diag.FromErr err, d), w)
        | (none, w) =>
          if d.await_delete_finished then
            match waitForInfrastructureFinished client infrastructureID d d.TimeoutUpdate
                DEPLOY_STATUS_DELETED w with
            | (none, w) => (none, w)
            | (some (dg, d), w) =>
              if dg.HasError then (some (dg, d), w)
              else (some ([], d.SetId ""), w)
          else (some ([], d.SetId ""), w)
      else (some ([], d.SetId ""), w)


/-- The entries of the log whose call satisfies `p`, oldest first. -/
def World.select {σ : Type} (p : Call → Bool) (w : World σ) : List (Call × DeployerData) :=
  w.calls.filter (fun e => p e.1)

/-- An infrastructure as the server reports it: active, last deploy finished, no custom
variables. -/
def activeInfrastructure : Infrastructure where
  InfrastructureID := 5
  InfrastructureServiceStatus := "active"
  InfrastructureCustomVariables := Dyn.slice []
  InfrastructureOperation :=
    { InfrastructureDeployStatus := "finished", InfrastructureCustomVariables := Dyn.slice [] }

/-- A server that answers every call with success. -/
def healthyClient : Client Unit where
  InfrastructureGet := fun _ s => (Except.ok activeInfrastructure, s)
  InfrastructureEdit := fun _ _ s => (Except.ok activeInfrastructure, s)
  InfrastructureDeploy := fun _ _ _ _ s => (none, s)
  InfrastructureDelete := fun _ s => (none, s)

/-- A server that cannot be reached: every call fails. -/
def unreachableClient : Client Unit where
  InfrastructureGet := fun _ s => (Except.error "connection refused", s)
  InfrastructureEdit := fun _ _ s => (Except.error "connection refused", s)
  InfrastructureDeploy := fun _ _ _ _ s => (some "connection refused", s)
  InfrastructureDelete := fun _ s => (some "connection refused", s)

/-- A server that refuses the deploy and answers the other calls with success. -/
def rejectingClient : Client Unit where
  InfrastructureGet := fun _ s => (Except.ok activeInfrastructure, s)
  InfrastructureEdit := fun _ _ s => (Except.ok activeInfrastructure, s)
  InfrastructureDeploy := fun _ _ _ _ s => (some "quota exceeded", s)
  InfrastructureDelete := fun _ s => (none, s)

/-- A resource state of the deployer for infrastructure 5, edited, with deploys allowed
and the infrastructure to be kept on destroy. -/
def deployerState : DeployerData where
  Id := "5"
  infrastructure_id := 5
  infrastructure_custom_variables := GoMap.empty
  infrastructure_service_status := "active"
  prevent_deploy := false
  hard_shutdown_after_timeout := true
  attempt_soft_shutdown := true
  soft_shutdown_timeout_seconds := 30
  allow_data_loss := false
  skip_ansible := false
  await_deploy_finished := true
  await_delete_finished := true
  keep_infrastructure_on_resource_destroy := true
  edited := true
  HasChange_infrastructure_custom_variables := true
  Get_id_nil := true
  TimeoutUpdate := 3


/-- The resource data with which `resourceInfrastructureDeployerUpdate` goes on after it
has parsed the ID as `id`: the ID is set to the infrastructure ID when the two differ. -/
def DeployerData.withInfrastructureId (d : DeployerData) (id : Int) : DeployerData :=
  if id ≠ d.infrastructure_id then d.SetId (Itoa d.infrastructure_id) else d

/-- The `deployerState` with deploys prevented. -/
def preventedState : DeployerData := { deployerState with prevent_deploy := true }

/-- The `deployerState` with an ID that is not an integer. -/
def brokenState : DeployerData := { deployerState with Id := "infra-5" }

/-- The warning that `resourceInfrastructureDeployerUpdate` returns after a failed deploy. -/
def deployWarning (infrastructure_id : Int) (err : String) : Diagnostic where
  Severity := Severity.Warning
  Summary := "The deploy could not finish for infrastructure #" ++ Itoa infrastructure_id ++
    ". Correct the configuration and try again."
  Detail := "The deploy encountered the following error: " ++ err ++ "."


/-- An element of the `interface` set that differs from `wanInterfaceMap` in the case of
the label and in one more key. -/
def wanInterfaceMapLower : SchemaMap := fun k =>
  if k = "interface_index" then some (Value.int 1)
  else if k = "network_label" then some (Value.str "wan")
  else if k = "network_id" then some (Value.int 5)
  else if k = "instance_array_interface_id" then some (Value.int 11)
  else none


/-! ## The instances of an instance array -/

/-- The SDK struct `mc.InstanceOperation`, with the field this provider uses. -/
structure InstanceOperation where
  InstanceCustomVariables : Dyn

/-- The SDK struct `mc.Instance`, with the fields this provider uses. -/
structure Instance where
  InstanceID : Int
  InstanceLabel : String
  InstanceCustomVariables : Dyn
  InstanceOperation : InstanceOperation

/-- The zero value of `mc.Instance`, which indexing a map by an absent key yields. -/
def Instance.zero : Instance where
  InstanceID := 0
  InstanceLabel := ""
  InstanceCustomVariables := Dyn.scalar Value.nil
  InstanceOperation := { InstanceCustomVariables := Dyn.scalar Value.nil }

/-- A Go `map[int]T` that is only indexed and assigned. -/
abbrev IntMap (α : Type) := Int → Option α

/-- The result of `make(map[int]T, n)`. -/
def IntMap.empty {α : Type} : IntMap α := fun _ => none

/-- The assignment `m[k] = v`. -/
def IntMap.set {α : Type} (m : IntMap α) (k : Int) (v : α) : IntMap α :=
  fun k' => if k' = k then some v else m k'

/-- The function `sort.Ints`: the slice in increasing order. -/
def sortInts (x : List Int) : List Int := x.insertionSort (fun a b => a ≤ b)

/-- The slice `instances` that the Go function `flattenInstances` hands to `json.Marshal`.
The map `*retInstances` is given by the pairs of key and value in the order in which
`range` visits them. -/
def flattenInstances.instances (retInstances : List (String × Instance)) : List Instance :=
  let instanceMap : IntMap Instance := IntMap.empty
  let keys : List Int := []
  let instances : List Instance := []
  let loop := retInstances.foldl
    (fun (st : IntMap Instance × List Int) kv =>
      let v := kv.2
      (st.1.set v.InstanceID v, st.2 ++ [v.InstanceID]))
    (instanceMap, keys)
  let instanceMap := loop.1
  let keys := sortInts loop.2
  keys.foldl (fun instances id => instances ++ [(instanceMap id).getD Instance.zero]) instances

/-- The Go function `flattenInstances`; `Marshal` is `json.Marshal` on a slice of
instances, with the text of its bytes as result. -/
def flattenInstances (Marshal : List Instance → Except String String)
    (retInstances : List (String × Instance)) : Except String String :=
  let instances := flattenInstances.instances retInstances
  match Marshal instances with
  | Except.error err => Except.error ("error serializing instances array: " ++ err)
  | Except.ok bytes => Except.ok bytes

/-- The instance with ID `id` and label `label`, without custom variables. -/
def plainInstance (id : Int) (label : String) : Instance where
  InstanceID := id
  InstanceLabel := label
  InstanceCustomVariables := Dyn.slice []
  InstanceOperation := { InstanceCustomVariables := Dyn.slice [] }

/-- A map of three instances, visited in the order of the IDs 30, 10, 20. -/
def threeInstances : List (String × Instance) :=
  [("instance-30", plainInstance 30 "c"), ("instance-10", plainInstance 10 "a"),
   ("instance-20", plainInstance 20 "b")]

/-- The same three instances under other keys, visited in another order. -/
def threeInstancesRekeyed : List (String × Instance) :=
  [("x", plainInstance 20 "b"), ("y", plainInstance 30 "c"), ("z", plainInstance 10 "a")]


/-! ## Theorems -/

theorem expand_flatten (fw : FirewallRule) :
    expandFirewallRule (flattenFirewallRule fw) = some fw := by
  cases fw
  simp [expandFirewallRule, flattenFirewallRule, GoMap.set, GoMap.empty, assertString,
    assertInt, assertBool]

theorem flatten_expand (m : SchemaMap) (h : FirewallRuleMap m) :
    (expandFirewallRule m).map flattenFirewallRule = some m := by
  obtain ⟨hout, ⟨s1, h1⟩, ⟨i2, h2⟩, ⟨i3, h3⟩, ⟨s4, h4⟩, ⟨s5, h5⟩, ⟨s6, h6⟩, ⟨s7, h7⟩,
    ⟨s8, h8⟩, ⟨s9, h9⟩, ⟨b10, h10⟩⟩ := h
  simp only [expandFirewallRule, h1, h2, h3, h4, h5, h6, h7, h8, h9, h10, assertString,
    assertInt, assertBool, Option.bind_eq_bind, Option.some_bind, Option.pure_def,
    Option.map_some', flattenFirewallRule]
  congr 1
  funext k
  by_cases hk : k ∈ firewallRuleKeys
  · simp only [firewallRuleKeys, List.mem_cons, List.mem_singleton, List.mem_nil_iff,
      or_false] at hk
    rcases hk with rfl | rfl | rfl | rfl | rfl | rfl | rfl | rfl | rfl | rfl <;>
      simp [GoMap.set, GoMap.empty, *]
  · rw [hout k hk]
    simp only [firewallRuleKeys, List.mem_cons, List.mem_singleton, not_or, List.mem_nil_iff,
      or_false] at hk
    simp [GoMap.set, GoMap.empty, hk]

theorem httpsRuleMap_wellTyped : FirewallRuleMap httpsRuleMap := by
  refine ⟨?_, ⟨"https", rfl⟩, ⟨443, rfl⟩, ⟨443, rfl⟩, ⟨"0.0.0.0", rfl⟩,
    ⟨"255.255.255.255", rfl⟩, ⟨"", rfl⟩, ⟨"", rfl⟩, ⟨"tcp", rfl⟩, ⟨"ipv4", rfl⟩, ⟨true, rfl⟩⟩
  intro k hk
  simp only [firewallRuleKeys, List.mem_cons, List.mem_singleton, not_or, List.mem_nil_iff,
    or_false] at hk
  simp [httpsRuleMap, hk]

/-! ### The checksum stays within 32 bits -/

theorem simpleTableEntry_lt (poly i : Nat) (hp : poly < 2 ^ 32) (hi : i < 2 ^ 32) :
    simpleTableEntry poly i < 2 ^ 32 := by
  unfold simpleTableEntry
  generalize List.range 8 = l
  induction l generalizing i with
  | nil => simpa using hi
  | cons a l ih =>
    rw [List.foldl_cons]
    apply ih
    split
    · exact Nat.xor_lt_two_pow (by omega) hp
    · omega

theorem foldl_update_lt (poly : Nat) (hp : poly < 2 ^ 32) (p : List Nat)
    (hb : ∀ b ∈ p, b < 256) (crc : Nat) (hc : crc < 2 ^ 32) :
    p.foldl (fun crc v => simpleTableEntry poly ((crc % 256) ^^^ v) ^^^ (crc / 256)) crc
      < 2 ^ 32 := by
  induction p generalizing crc with
  | nil => simpa using hc
  | cons b p ih =>
    rw [List.foldl_cons]
    apply ih (fun x hx => hb x (List.mem_cons_of_mem _ hx))
    have hb' : b < 2 ^ 8 := hb b (List.mem_cons_self _ _)
    have h1 : (crc % 256) ^^^ b < 2 ^ 8 :=
      Nat.xor_lt_two_pow (Nat.mod_lt _ (by norm_num)) hb'
    exact Nat.xor_lt_two_pow (simpleTableEntry_lt poly _ hp (by omega)) (by omega)

theorem bytes_lt (v : String) : ∀ b ∈ bytes v, b < 256 := by
  intro b hb
  simp only [bytes, List.mem_map] at hb
  obtain ⟨u, _, rfl⟩ := hb
  exact u.toNat_lt

theorem ChecksumIEEE_lt (p : List Nat) (hb : ∀ b ∈ p, b < 256) : ChecksumIEEE p < 2 ^ 32 := by
  unfold ChecksumIEEE simpleUpdate
  exact Nat.xor_lt_two_pow
    (foldl_update_lt IEEE (by norm_num [IEEE]) p hb _ (Nat.xor_lt_two_pow (by norm_num) (by norm_num)))
    (by norm_num)

set_option maxRecDepth 100000 in
theorem ChecksumIEEE_check_value : ChecksumIEEE (bytes "123456789") = 0xcbf43926 := by
  decide

theorem intOfUint32_eq (x : Nat) (h : x < 2 ^ 32) : intOfUint32 x = (x : Int) := by
  unfold intOfUint32
  omega


/-! ### Lower-casing leaves decimal numerals alone -/

theorem unicodeToLower_digitChar (lowerCase : Char → Char) (k : Nat) (hk : k < 10) :
    unicodeToLower lowerCase (Nat.digitChar k) = Nat.digitChar k := by
  interval_cases k <;> rfl

theorem toDigitsCore_fixed (lowerCase : Char → Char) (fuel n : Nat) (ds : List Char)
    (hds : ∀ c ∈ ds, unicodeToLower lowerCase c = c) :
    ∀ c ∈ Nat.toDigitsCore 10 fuel n ds, unicodeToLower lowerCase c = c := by
  induction fuel generalizing n ds with
  | zero => simpa [Nat.toDigitsCore] using hds
  | succ fuel ih =>
    have hcons : ∀ c ∈ Nat.digitChar (n % 10) :: ds, unicodeToLower lowerCase c = c := by
      intro c hc
      rcases List.mem_cons.mp hc with rfl | hc
      · exact unicodeToLower_digitChar lowerCase _ (Nat.mod_lt _ (by norm_num))
      · exact hds c hc
    simp only [Nat.toDigitsCore]
    split
    · exact hcons
    · exact ih _ _ hcons

theorem map_fixed {α : Type} (f : α → α) (l : List α) (h : ∀ c ∈ l, f c = c) :
    l.map f = l := by
  induction l with
  | nil => rfl
  | cons a l ih =>
    rw [List.map_cons, h a (List.mem_cons_self _ _),
      ih (fun c hc => h c (List.mem_cons_of_mem _ hc))]

theorem ToLower_repr (lowerCase : Char → Char) (n : Nat) :
    ToLower lowerCase (Nat.repr n) = Nat.repr n := by
  have h := toDigitsCore_fixed lowerCase (n + 1) n [] (by simp)
  simp only [ToLower, Nat.repr, Nat.toDigits, List.asString]
  rw [map_fixed _ _ h]

theorem ToLower_Itoa (lowerCase : Char → Char) (i : Int) :
    ToLower lowerCase (Itoa i) = Itoa i := by
  cases i with
  | ofNat n => exact ToLower_repr lowerCase n
  | negSucc n =>
    have h := toDigitsCore_fixed lowerCase (n + 1 + 1) (n + 1) [] (by simp)
    have hm : unicodeToLower lowerCase '-' = '-' := rfl
    simp only [Itoa, ToLower, Nat.repr, Nat.toDigits, List.asString, String.data_append,
      List.map_append, map_fixed _ _ h]
    rw [map_fixed _ ("-" : String).data (by
      intro c hc
      have : c = '-' := by simpa using hc
      rw [this, hm])]
    rfl

/-! ### Lists built by appending -/

theorem foldl_append_singleton {α β : Type} (f : α → β) (l : List α) (acc : List β) :
    l.foldl (fun out x => out ++ [f x]) acc = acc ++ l.map f := by
  induction l generalizing acc with
  | nil => simp
  | cons a l ih => simp [ih]

theorem copyStringValues_some (kvs : List (String × Value))
    (h : ∀ kv ∈ kvs, ∃ s, kv.2 = Value.str s) : ∃ m, copyStringValues kvs = some m := by
  unfold copyStringValues
  generalize (GoMap.empty : GoMap String) = acc
  induction kvs generalizing acc with
  | nil => exact ⟨acc, rfl⟩
  | cons kv kvs ih =>
    obtain ⟨s, hs⟩ := h kv (List.mem_cons_self _ _)
    obtain ⟨m, hm⟩ := ih (fun x hx => h x (List.mem_cons_of_mem _ hx)) (acc.set kv.1 s)
    have hkv : assertString (some kv.2) = some s := by rw [hs]; rfl
    refine ⟨m, ?_⟩
    simp only [List.foldlM_cons, hkv, Option.map_some', Option.bind_eq_bind, Option.some_bind]
    exact hm

/-! ### The claims -/

/-- C1. Expanding a flattened firewall rule gives the rule back, with all ten fields; and
flattening the expansion of a schema map that holds exactly the ten keys, well typed, gives
the map back. -/
theorem firewallRule_roundtrip (fw : FirewallRule) (m : SchemaMap) (hm : FirewallRuleMap m) :
    expandFirewallRule (flattenFirewallRule fw) = some fw ∧
    (expandFirewallRule m).map flattenFirewallRule = some m :=
  ⟨expand_flatten fw, flatten_expand m hm⟩

theorem firewallRule_roundtrip_witness :
    FirewallRuleMap httpsRuleMap ∧
    expandFirewallRule (flattenFirewallRule httpsRule) = some httpsRule ∧
    (expandFirewallRule httpsRuleMap).map flattenFirewallRule = some httpsRuleMap :=
  ⟨httpsRuleMap_wellTyped, firewallRule_roundtrip httpsRule httpsRuleMap httpsRuleMap_wellTyped⟩

/-- C2, as stated, fails: the state holds one firewall rule, the server reports none, and
after `flattenInstanceArray` the state still holds the rule. -/
theorem flattenInstanceArray_keeps_stale_rules :
    webArray.InstanceArrayFirewallRules = [] ∧
    (flattenInstanceArray webState webArray).map (fun d => d.firewall_rule.items.length)
      = some 1 := by
  decide

/-- C2, amended. When the server's custom variables decode, `flattenInstanceArray`
returns; if the server reports at least one firewall rule, the `firewall_rule` attribute is
then the set of the server's rules, each flattened by `flattenFirewallRule`; if it reports
none, the attribute keeps the value of the prior state. -/
theorem flattenInstanceArray_firewall_rule (d : InstanceArrayData) (ia : InstanceArray)
    (hcv : DecodedCustomVariables ia.InstanceArrayCustomVariables) :
    ∃ d', flattenInstanceArray d ia = some d' ∧
      (ia.InstanceArrayFirewallRules ≠ [] →
        d'.firewall_rule.items = ia.InstanceArrayFirewallRules.map flattenFirewallRule) ∧
      (ia.InstanceArrayFirewallRules = [] → d'.firewall_rule.items = d.firewall_rule.items) := by
  have hmap := foldl_append_singleton flattenFirewallRule ia.InstanceArrayFirewallRules []
  rw [List.nil_append] at hmap
  cases hdyn : ia.InstanceArrayCustomVariables with
  | scalar v => simp [hdyn, DecodedCustomVariables] at hcv
  | stringMap sm => simp [hdyn, DecodedCustomVariables] at hcv
  | slice xs =>
    by_cases hr : ia.InstanceArrayFirewallRules = []
    · simp [flattenInstanceArray, hdyn, hr]
    · have hpos : 0 < ia.InstanceArrayFirewallRules.length := List.length_pos.mpr hr
      simp [flattenInstanceArray, hdyn, hr, hpos, hmap]
  | object kvs =>
    rw [hdyn] at hcv
    obtain ⟨cv, hcv'⟩ := copyStringValues_some kvs hcv
    by_cases hr : ia.InstanceArrayFirewallRules = []
    · simp [flattenInstanceArray, hdyn, hr, hcv']
    · have hpos : 0 < ia.InstanceArrayFirewallRules.length := List.length_pos.mpr hr
      simp [flattenInstanceArray, hdyn, hr, hpos, hmap, hcv']

theorem flattenInstanceArray_firewall_rule_witness :
    DecodedCustomVariables webArrayWithRule.InstanceArrayCustomVariables ∧
    ∃ d', flattenInstanceArray webState webArrayWithRule = some d' ∧
      (webArrayWithRule.InstanceArrayFirewallRules ≠ [] →
        d'.firewall_rule.items
          = webArrayWithRule.InstanceArrayFirewallRules.map flattenFirewallRule) ∧
      (webArrayWithRule.InstanceArrayFirewallRules = [] →
        d'.firewall_rule.items = webState.firewall_rule.items) :=
  ⟨trivial, flattenInstanceArray_firewall_rule webState webArrayWithRule trivial⟩

/-- C3 fails on the code: `copyInstanceArrayToOperation` copies every configured field
except the processor core count, which keeps the value the operation had. The update of
`webState`, configured with 8 cores, sends the server's 4. -/
theorem copyInstanceArrayToOperation_skips_core_count :
    (∀ (ia : InstanceArray) (iao : InstanceArrayOperation),
      (copyInstanceArrayToOperation ia iao).InstanceArrayProcessorCoreCount
        = iao.InstanceArrayProcessorCoreCount ∧
      (copyInstanceArrayToOperation ia iao).InstanceArrayID = ia.InstanceArrayID ∧
      (copyInstanceArrayToOperation ia iao).InstanceArrayLabel = ia.InstanceArrayLabel ∧
      (copyInstanceArrayToOperation ia iao).InstanceArrayInstanceCount
        = ia.InstanceArrayInstanceCount ∧
      (copyInstanceArrayToOperation ia iao).InstanceArrayBootMethod
        = ia.InstanceArrayBootMethod ∧
      (copyInstanceArrayToOperation ia iao).InstanceArrayRAMGbytes
        = ia.InstanceArrayRAMGbytes ∧
      (copyInstanceArrayToOperation ia iao).InstanceArrayProcessorCount
        = ia.InstanceArrayProcessorCount ∧
      (copyInstanceArrayToOperation ia iao).InstanceArrayProcessorCoreMHZ
        = ia.InstanceArrayProcessorCoreMHZ ∧
      (copyInstanceArrayToOperation ia iao).InstanceArrayDiskCount
        = ia.InstanceArrayDiskCount ∧
      (copyInstanceArrayToOperation ia iao).InstanceArrayDiskSizeMBytes
        = ia.InstanceArrayDiskSizeMBytes ∧
      (copyInstanceArrayToOperation ia iao).VolumeTemplateID = ia.VolumeTemplateID ∧
      (copyInstanceArrayToOperation ia iao).InstanceArrayAdditionalWanIPv4JSON
        = ia.InstanceArrayAdditionalWanIPv4JSON ∧
      (copyInstanceArrayToOperation ia iao).InstanceArrayFirewallManaged
        = ia.InstanceArrayFirewallManaged ∧
      (copyInstanceArrayToOperation ia iao).InstanceArrayFirewallRules
        = ia.InstanceArrayFirewallRules ∧
      (copyInstanceArrayToOperation ia iao).InstanceArrayCustomVariables
        = ia.InstanceArrayCustomVariables) ∧
    (expandInstanceArray webState).map (fun ia => ia.InstanceArrayProcessorCoreCount) = some 8 ∧
    ((resourceInstanceArrayUpdate.request webState webGet).bind EditRequest.operation?).map
      (fun op => op.InstanceArrayProcessorCoreCount) = some 4 := by
  refine ⟨fun _ _ => ⟨rfl, rfl, rfl, rfl, rfl, rfl, rfl, rfl, rfl, rfl, rfl, rfl, rfl, rfl,
    rfl⟩, ?_, ?_⟩ <;> decide

/-- The loop under "update interface operations" leaves the slice as it was: it writes to
the range variable only. -/
theorem updateInterfaceOperations_eq (interfaces : List InstanceArrayInterface)
    (operations : List InstanceArrayInterfaceOperation) :
    updateInterfaceOperations interfaces operations = operations := by
  unfold updateInterfaceOperations
  have inner : ∀ (intf : InstanceArrayInterface) (l : List InstanceArrayInterfaceOperation)
      (slice : List InstanceArrayInterfaceOperation),
      l.foldl (fun slice opIntf =>
          let _opIntf :=
            if opIntf.InstanceArrayInterfaceID = intf.InstanceArrayInterfaceID then
              copyInstanceArrayInterfaceToOperation intf opIntf
            else opIntf
          slice) slice = slice := by
    intro intf l slice
    induction l with
    | nil => rfl
    | cons a l ih => simp [ih]
  induction interfaces with
  | nil => rfl
  | cons a l ih => simp [inner, ih]

/-- The array that `expandInstanceArray` returns has no interfaces: the function reads
the attribute `interface` nowhere. -/
theorem expandInstanceArray_interfaces (d : InstanceArrayData) (ia : InstanceArray)
    (h : expandInstanceArray d = some ia) : ia.InstanceArrayInterfaces = [] := by
  unfold expandInstanceArray at h
  simp only [bind, Option.bind, pure] at h
  split at h
  · exact absurd h (by simp)
  · injection h with h
    rw [← h]
    rfl

/-- The interface operations of the operation are those handed to
`copyInstanceArrayToOperation`. -/
theorem copyInstanceArrayToOperation_interfaces (ia : InstanceArray)
    (iao : InstanceArrayOperation) :
    (copyInstanceArrayToOperation ia iao).InstanceArrayInterfaces
      = iao.InstanceArrayInterfaces := rfl

/-- C4. When `resourceInstanceArrayUpdate` has parsed the ID, received the instance array
and its operation from the server and expanded the resource data, it calls
`InstanceArrayEdit`, and for every interface of the expanded array whose ID is that of an
interface operation of the server's operation, the interface operation at that place in
the operation sent has the interface's index, network ID and LAGG indexes. The expanded
array holds no interface, and the interface operations sent are the server's. -/
theorem resourceInstanceArrayUpdate_interface_operations (d : InstanceArrayData)
    (InstanceArrayGet : Int → Except String InstanceArray) (id : Int)
    (retIA ia : InstanceArray) (served : InstanceArrayOperation)
    (hid : Atoi d.Id = Except.ok id) (hget : InstanceArrayGet id = Except.ok retIA)
    (hop : retIA.InstanceArrayOperation = some served)
    (hia : expandInstanceArray d = some ia) :
    ∃ sent : InstanceArrayOperation,
      resourceInstanceArrayUpdate.request d InstanceArrayGet
        = some (EditRequest.InstanceArrayEdit id sent false false) ∧
      (∀ intf ∈ ia.InstanceArrayInterfaces, ∀ (k : Nat) (opIntf : InstanceArrayInterfaceOperation),
        served.InstanceArrayInterfaces[k]? = some opIntf →
        opIntf.InstanceArrayInterfaceID = intf.InstanceArrayInterfaceID →
        ∃ sentIntf, sent.InstanceArrayInterfaces[k]? = some sentIntf ∧
          sentIntf.InstanceArrayInterfaceIndex = intf.InstanceArrayInterfaceIndex ∧
          sentIntf.NetworkID = intf.NetworkID ∧
          sentIntf.InstanceArrayInterfaceLAGGIndexes
            = intf.InstanceArrayInterfaceLAGGIndexes) ∧
      ia.InstanceArrayInterfaces = [] ∧
      sent.InstanceArrayInterfaces = served.InstanceArrayInterfaces := by
  have hnone := expandInstanceArray_interfaces d ia hia
  refine ⟨copyInstanceArrayToOperation ia { served with
    InstanceArrayInterfaces :=
      updateInterfaceOperations ia.InstanceArrayInterfaces served.InstanceArrayInterfaces },
    ?_, ?_, hnone, ?_⟩
  · unfold resourceInstanceArrayUpdate.request
    rw [hid]
    dsimp only
    rw [hget]
    dsimp only
    rw [hia, hop]
    rfl
  · intro intf hmem
    rw [hnone] at hmem
    exact absurd hmem (List.not_mem_nil intf)
  · rw [copyInstanceArrayToOperation_interfaces]
    exact updateInterfaceOperations_eq _ _

theorem resourceInstanceArrayUpdate_interface_operations_witness :
    Atoi webState.Id = Except.ok 7 ∧ webGet 7 = Except.ok webArray ∧
    webArray.InstanceArrayOperation = some webOperation ∧
    (expandInstanceArray webState).isSome = true ∧
    webState.interface.items.length = 1 ∧
    ((resourceInstanceArrayUpdate.request webState webGet).bind EditRequest.operation?).map
      (fun op => op.InstanceArrayInterfaces) = some webOperation.InstanceArrayInterfaces :=
  have hsome : (expandInstanceArray webState).isSome = true := by decide
  ⟨rfl, rfl, rfl, hsome, by decide,
    (resourceInstanceArrayUpdate_interface_operations webState webGet 7 webArray
      ((expandInstanceArray webState).get hsome) webOperation rfl rfl rfl
      (Option.some_get hsome).symm).elim
      (fun sent h => by rw [h.1]; exact congrArg some h.2.2.2)⟩

/-- C10. `hash v` is the CRC-32 checksum (IEEE polynomial) of the bytes of `v` as a
non-negative number below `2 ^ 32`, and `interfaceResourceHash` of an element is `hash` of
the lower-cased network label, the decimal interface index and the decimal network ID, each
followed by "-". -/
theorem hash_crc32 (lowerCase : Char → Char) (v : String) (e : SchemaMap) (index id : Int)
    (label : String) (hindex : e "interface_index" = some (Value.int index))
    (hid : e "network_id" = some (Value.int id))
    (hlabel : e "network_label" = some (Value.str label)) :
    hash v = (ChecksumIEEE (bytes v) : Int) ∧ 0 ≤ hash v ∧ hash v < 2 ^ 32 ∧
    interfaceResourceHash lowerCase e
      = some (hash (ToLower lowerCase label ++ "-" ++ Itoa index ++ "-" ++ Itoa id ++ "-")) := by
  have hlt := ChecksumIEEE_lt (bytes v) (bytes_lt v)
  have heq : hash v = (ChecksumIEEE (bytes v) : Int) := intOfUint32_eq _ hlt
  refine ⟨heq, ?_, ?_, ?_⟩
  · rw [heq]; exact Int.natCast_nonneg _
  · rw [heq]; exact_mod_cast hlt
  · have hstr : ∀ a b c : String,
        "" ++ (a ++ "-") ++ (b ++ "-") ++ (c ++ "-") = a ++ "-" ++ b ++ "-" ++ c ++ "-" := by
      intro a b c
      apply String.ext
      simp only [String.data_append, List.append_assoc]
      rfl
    simp only [interfaceResourceHash, interfaceToString, hindex, hid, hlabel, assertInt,
      assertString, Option.map_some', Option.bind_eq_bind, Option.some_bind, Option.pure_def,
      ToLower_Itoa, hstr]

theorem hash_crc32_witness :
    wanInterfaceMap "interface_index" = some (Value.int 1) ∧
    wanInterfaceMap "network_id" = some (Value.int 5) ∧
    wanInterfaceMap "network_label" = some (Value.str "WAN") ∧
    hash "123456789" = (ChecksumIEEE (bytes "123456789") : Int) ∧ 0 ≤ hash "123456789" ∧
    hash "123456789" < 2 ^ 32 ∧
    interfaceResourceHash id wanInterfaceMap
      = some (hash (ToLower id "WAN" ++ "-" ++ Itoa 1 ++ "-" ++ Itoa 5 ++ "-")) :=
  ⟨rfl, rfl, rfl, hash_crc32 id "123456789" wanInterfaceMap 1 5 "WAN" rfl rfl rfl⟩

/-! ### What each step adds to the log -/

theorem select_callInfrastructureGet {σ : Type} (p : Call → Bool)
    (hget : ∀ id, p (Call.InfrastructureGet id) = false) (client : Client σ)
    (d : DeployerData) (id : Int) (w : World σ) :
    (callInfrastructureGet client d id w).2.select p = w.select p := by
  simp [callInfrastructureGet, World.select, List.filter_append, hget]

theorem select_callInfrastructureEdit {σ : Type} (p : Call → Bool)
    (hedit : ∀ id op, p (Call.InfrastructureEdit id op) = false) (client : Client σ)
    (d : DeployerData) (id : Int) (op : InfrastructureOperation) (w : World σ) :
    (callInfrastructureEdit client d id op w).2.select p = w.select p := by
  simp [callInfrastructureEdit, World.select, List.filter_append, hedit]

theorem select_callInfrastructureDelete {σ : Type} (p : Call → Bool)
    (hdelete : ∀ id, p (Call.InfrastructureDelete id) = false) (client : Client σ)
    (d : DeployerData) (id : Int) (w : World σ) :
    (callInfrastructureDelete client d id w).2.select p = w.select p := by
  simp [callInfrastructureDelete, World.select, List.filter_append, hdelete]

theorem select_deployInfrastructure {σ : Type} (p : Call → Bool) (client : Client σ)
    (id : Int) (d : DeployerData) (w : World σ) :
    (deployInfrastructure client id d w).2.select p = w.select p ++
      [(Call.InfrastructureDeploy id
          { HardShutdownAfterTimeout := d.hard_shutdown_after_timeout
            AttemptSoftShutdown := d.attempt_soft_shutdown
            SoftShutdownTimeoutSeconds := d.soft_shutdown_timeout_seconds }
          d.allow_data_loss d.skip_ansible, d)].filter (fun e => p e.1) := by
  simp [deployInfrastructure, callInfrastructureDeploy, World.select, List.filter_append]

theorem select_Read {σ : Type} (p : Call → Bool)
    (hget : ∀ id, p (Call.InfrastructureGet id) = false) (client : Client σ)
    (d : DeployerData) (w : World σ) :
    (resourceInfrastructureDeployerRead client d w).2.select p = w.select p := by
  have h := select_callInfrastructureGet p hget client d d.infrastructure_id w
  unfold resourceInfrastructureDeployerRead
  dsimp only
  split
  · next err w' heq => rw [heq] at h; exact h
  · next infrastructure w' heq =>
    rw [heq] at h
    split
    · exact h
    · split <;> exact h
    · exact h

theorem select_updateRead {σ : Type} (p : Call → Bool)
    (hget : ∀ id, p (Call.InfrastructureGet id) = false) (client : Client σ)
    (d : DeployerData) (w : World σ) :
    (resourceInfrastructureDeployerUpdate.read client d w).2.select p = w.select p := by
  have h := select_Read p hget client d w
  unfold resourceInfrastructureDeployerUpdate.read
  split
  · next w' heq => rw [heq] at h; exact h
  · next dg d' w' heq =>
    rw [heq] at h
    split <;> exact h

theorem select_updateInfrastructureCustomVariables {σ : Type} (p : Call → Bool)
    (hget : ∀ id, p (Call.InfrastructureGet id) = false)
    (hedit : ∀ id op, p (Call.InfrastructureEdit id op) = false) (client : Client σ)
    (d : DeployerData) (id : Int) (w : World σ) :
    (updateInfrastructureCustomVariables client d id w).2.select p = w.select p := by
  unfold updateInfrastructureCustomVariables
  split
  · have h := select_callInfrastructureGet p hget client d id w
    dsimp only
    split
    · next err w' heq => rw [heq] at h; exact h
    · next infrastructure w' heq =>
      rw [heq] at h
      have h2 := select_callInfrastructureEdit p hedit client d id
        { infrastructure.InfrastructureOperation with
          InfrastructureCustomVariables :=
            Dyn.stringMap (fun k => d.infrastructure_custom_variables k) } w'
      split
      · next err w2 heq2 => rw [heq2] at h2; exact h2.trans h
      · next r w2 heq2 => rw [heq2] at h2; exact h2.trans h
  · rfl

theorem select_Refresh {σ : Type} (p : Call → Bool)
    (hget : ∀ id, p (Call.InfrastructureGet id) = false) (client : Client σ)
    (d : DeployerData) (id : Int) (target : String) (w : World σ) :
    (waitForInfrastructureFinished.Refresh client d id target w).2.select p = w.select p := by
  have h := select_callInfrastructureGet p hget client d id w
  unfold waitForInfrastructureFinished.Refresh
  split
  · next err w' heq =>
    rw [heq] at h
    split <;> exact h
  · next resp w' heq => rw [heq] at h; exact h

theorem select_poll {σ : Type} (p : Call → Bool) (conf : StateChangeConf σ)
    (hrefresh : ∀ w, (conf.Refresh w).2.select p = w.select p) (n : Nat) (w : World σ) :
    (conf.poll n w).2.select p = w.select p := by
  induction n generalizing w with
  | zero => rfl
  | succ n ih =>
    have h := hrefresh w
    unfold StateChangeConf.poll
    split
    next r w' heq =>
    rw [heq] at h
    split
    · exact h
    · split
      · exact h
      · split
        · exact (ih w').trans h
        · exact h

theorem select_waitForInfrastructureFinished {σ : Type} (p : Call → Bool)
    (hget : ∀ id, p (Call.InfrastructureGet id) = false)
    (hwait : ∀ t, p (Call.WaitForState t) = false) (client : Client σ) (id : Int)
    (d : DeployerData) (timeout : Nat) (target : String) (w : World σ) :
    (waitForInfrastructureFinished client id d timeout target w).2.select p = w.select p := by
  have h0 : World.select p { w with calls := w.calls ++ [(Call.WaitForState target, d)] }
      = w.select p := by
    simp [World.select, List.filter_append, hwait]
  have h1 := select_poll p
    (waitForInfrastructureFinished.createStateConf client d id timeout target)
    (fun w => select_Refresh p hget client d id target w)
    (waitForInfrastructureFinished.createStateConf client d id timeout target).Timeout
    { w with calls := w.calls ++ [(Call.WaitForState target, d)] }
  unfold waitForInfrastructureFinished
  dsimp only
  split
  · next err w' heq => rw [heq] at h1; exact h1.trans h0
  · next w' heq =>
    rw [heq] at h1
    split
    · exact h1.trans h0
    · exact (select_Read p hget client d w').trans (h1.trans h0)

/-! ### The deployer -/

theorem Atoi_ok_ne_empty (s : String) (id : Int) (h : Atoi s = Except.ok id) : s ≠ "" := by
  intro hs
  subst hs
  have : Atoi "" = Except.error "strconv.Atoi: parsing \"\": invalid syntax" := rfl
  rw [this] at h
  cases h

/-- C5. `resourceInfrastructureDeployerCustomizeDiff` returns no error; when
`prevent_deploy` is false the new value of `edited` is true and nothing else changes, and
when `prevent_deploy` is true the diff is left as it is. -/
theorem customizeDiff_fake_edit (d : DeployerData) :
    (resourceInfrastructureDeployerCustomizeDiff d).2 = none ∧
    (d.prevent_deploy = false →
      (resourceInfrastructureDeployerCustomizeDiff d).1 = { d with edited := true }) ∧
    (d.prevent_deploy = true → (resourceInfrastructureDeployerCustomizeDiff d).1 = d) := by
  refine ⟨rfl, ?_, ?_⟩ <;> intro h <;> simp [resourceInfrastructureDeployerCustomizeDiff, h]

theorem customizeDiff_fake_edit_witness :
    deployerState.prevent_deploy = false ∧
    (resourceInfrastructureDeployerCustomizeDiff deployerState).1
      = { deployerState with edited := true } ∧
    preventedState.prevent_deploy = true ∧
    (resourceInfrastructureDeployerCustomizeDiff preventedState).1 = preventedState ∧
    (resourceInfrastructureDeployerCustomizeDiff preventedState).2 = none :=
  ⟨rfl, (customizeDiff_fake_edit deployerState).2.1 rfl, rfl,
    (customizeDiff_fake_edit preventedState).2.2 rfl, (customizeDiff_fake_edit preventedState).1⟩

/-- The deploys of an update whose custom-variable step does not panic: one call of
`InfrastructureDeploy` when `edited` is true and `prevent_deploy` is false, made with
`edited` already false, and none otherwise. -/
theorem resourceInfrastructureDeployerUpdate_deploys {σ : Type} (client : Client σ) (s : σ)
    (d : DeployerData) (id : Int) (hid : Atoi d.Id = Except.ok id)
    (hcv : (updateInfrastructureCustomVariables client (d.withInfrastructureId id)
      d.infrastructure_id (World.start s)).1 ≠ none) :
    (resourceInfrastructureDeployerUpdate client d (World.start s)).2.select
        Call.isInfrastructureDeploy =
      if d.edited = true ∧ d.prevent_deploy = false then
        [(Call.InfrastructureDeploy d.infrastructure_id
            { HardShutdownAfterTimeout := d.hard_shutdown_after_timeout
              AttemptSoftShutdown := d.attempt_soft_shutdown
              SoftShutdownTimeoutSeconds := d.soft_shutdown_timeout_seconds }
            d.allow_data_loss d.skip_ansible,
          { d.withInfrastructureId id with edited := false })]
      else [] := by
  have hget : ∀ i, Call.isInfrastructureDeploy (Call.InfrastructureGet i) = false :=
    fun _ => rfl
  have hedit : ∀ i op, Call.isInfrastructureDeploy (Call.InfrastructureEdit i op) = false :=
    fun _ _ => rfl
  have hwait : ∀ t, Call.isInfrastructureDeploy (Call.WaitForState t) = false := fun _ => rfl
  have h1 := select_updateInfrastructureCustomVariables Call.isInfrastructureDeploy hget hedit
    client (d.withInfrastructureId id) d.infrastructure_id (World.start s)
  unfold resourceInfrastructureDeployerUpdate
  rw [hid]
  simp only [DeployerData.withInfrastructureId] at hcv h1 ⊢
  have he : (if id ≠ d.infrastructure_id then d.SetId (Itoa d.infrastructure_id) else d).edited
      = d.edited := by split <;> rfl
  have hp : (if id ≠ d.infrastructure_id then d.SetId (Itoa d.infrastructure_id)
      else d).prevent_deploy = d.prevent_deploy := by split <;> rfl
  have hh : (if id ≠ d.infrastructure_id then d.SetId (Itoa d.infrastructure_id)
      else d).hard_shutdown_after_timeout = d.hard_shutdown_after_timeout := by split <;> rfl
  have ha : (if id ≠ d.infrastructure_id then d.SetId (Itoa d.infrastructure_id)
      else d).attempt_soft_shutdown = d.attempt_soft_shutdown := by split <;> rfl
  have hs : (if id ≠ d.infrastructure_id then d.SetId (Itoa d.infrastructure_id)
      else d).soft_shutdown_timeout_seconds = d.soft_shutdown_timeout_seconds := by
    split <;> rfl
  have hl : (if id ≠ d.infrastructure_id then d.SetId (Itoa d.infrastructure_id)
      else d).allow_data_loss = d.allow_data_loss := by split <;> rfl
  have hk : (if id ≠ d.infrastructure_id then d.SetId (Itoa d.infrastructure_id)
      else d).skip_ansible = d.skip_ansible := by split <;> rfl
  generalize (if id ≠ d.infrastructure_id then d.SetId (Itoa d.infrastructure_id) else d) = d0
    at hcv h1 he hp hh ha hs hl hk ⊢
  split
  · next w heq => rw [heq] at hcv; exact absurd rfl hcv
  · next dg w heq =>
    rw [heq] at h1
    have hw : w.select Call.isInfrastructureDeploy = [] := h1
    by_cases hc : d.edited = true ∧ d.prevent_deploy = false
    · have hcond : (d0.edited && !d0.prevent_deploy) = true := by
        simp [he, hp, hc.1, hc.2]
      rw [if_pos hcond, if_pos hc]
      have hd := select_deployInfrastructure Call.isInfrastructureDeploy client
        d.infrastructure_id { d0 with edited := false } w
      rw [hw] at hd
      generalize hd1 : ({ d0 with edited := false } : DeployerData) = d1 at hd ⊢
      have f1 : d1.hard_shutdown_after_timeout = d.hard_shutdown_after_timeout := by
        rw [← hd1]; exact hh
      have f2 : d1.attempt_soft_shutdown = d.attempt_soft_shutdown := by rw [← hd1]; exact ha
      have f3 : d1.soft_shutdown_timeout_seconds = d.soft_shutdown_timeout_seconds := by
        rw [← hd1]; exact hs
      have f4 : d1.allow_data_loss = d.allow_data_loss := by rw [← hd1]; exact hl
      have f5 : d1.skip_ansible = d.skip_ansible := by rw [← hd1]; exact hk
      simp only [f1, f2, f3, f4, f5, List.nil_append, List.filter_cons, List.filter_nil,
        Call.isInfrastructureDeploy, if_true] at hd
      split
      · next err w2 heq2 =>
        rw [heq2] at hd
        have hr := select_Read Call.isInfrastructureDeploy hget client d1 w2
        split
        · next w3 heq3 => rw [heq3] at hr; exact hr.trans hd
        · next dg3 d3 w3 heq3 =>
          rw [heq3] at hr
          split <;> exact hr.trans hd
      · next w2 heq2 =>
        rw [heq2] at hd
        split
        · exact (select_waitForInfrastructureFinished Call.isInfrastructureDeploy hget hwait
            client _ _ _ _ w2).trans hd
        · exact (select_updateRead Call.isInfrastructureDeploy hget client _ w2).trans hd
    · have hcond : ¬ (d0.edited && !d0.prevent_deploy) = true := by
        intro h
        apply hc
        simpa [he, hp] using h
      rw [if_neg hcond, if_neg hc]
      exact (select_updateRead Call.isInfrastructureDeploy hget client d0 w).trans hw

/-- C6 fails on the code: the state has an integer ID, `edited` true and `prevent_deploy`
false, and the server cannot be reached. `updateInfrastructureCustomVariables` drops the
error of `InfrastructureGet` and dereferences the nil infrastructure, so the update panics
after that one call and `InfrastructureDeploy` is never called. -/
theorem resourceInfrastructureDeployerUpdate_panics_before_deploy :
    (Atoi deployerState.Id).toOption = some 5 ∧
    deployerState.edited = true ∧ deployerState.prevent_deploy = false ∧
    (resourceInfrastructureDeployerUpdate unreachableClient deployerState
      (World.start ())).1.isNone = true ∧
    (resourceInfrastructureDeployerUpdate unreachableClient deployerState
      (World.start ())).2.calls.map (fun e => e.1.isInfrastructureDeploy) = [false] := by
  decide

/-- C7. When the update starts a deploy (the ID is an integer, the custom-variable step
returns, `edited` is true and `prevent_deploy` false), `InfrastructureDeploy` fails with
`err` and the read that follows returns without an error, then the update returns exactly
one diagnostic, a warning whose summary names the infrastructure ID and whose detail names
`err`; there is no error among the diagnostics, no call is made after the read, and
`WaitForState` is not called. -/
theorem resourceInfrastructureDeployerUpdate_deploy_failure {σ : Type} (client : Client σ)
    (s : σ) (d : DeployerData) (id : Int) (dgcv : Diagnostics) (w1 w2 w3 : World σ)
    (err : String) (dg : Diagnostics) (d2 : DeployerData)
    (hid : Atoi d.Id = Except.ok id)
    (hedited : d.edited = true) (hprevent : d.prevent_deploy = false)
    (hcv : updateInfrastructureCustomVariables client (d.withInfrastructureId id)
      d.infrastructure_id (World.start s) = (some dgcv, w1))
    (hdeploy : deployInfrastructure client d.infrastructure_id
      { d.withInfrastructureId id with edited := false } w1 = (some err, w2))
    (hread : resourceInfrastructureDeployerRead client
      { d.withInfrastructureId id with edited := false } w2 = (some (dg, d2), w3))
    (hok : dg.HasError = false) :
    resourceInfrastructureDeployerUpdate client d (World.start s) =
      (some ([deployWarning d.infrastructure_id err], d2), w3) ∧
    (deployWarning d.infrastructure_id err).Severity = Severity.Warning ∧
    (deployWarning d.infrastructure_id err).Summary =
      "The deploy could not finish for infrastructure #" ++ Itoa d.infrastructure_id ++
        ". Correct the configuration and try again." ∧
    (deployWarning d.infrastructure_id err).Detail =
      "The deploy encountered the following error: " ++ err ++ "." ∧
    Diagnostics.HasError [deployWarning d.infrastructure_id err] = false ∧
    w3.select Call.isWaitForState = [] := by
  have hwaits : w3.select Call.isWaitForState = [] := by
    have a := select_updateInfrastructureCustomVariables Call.isWaitForState (fun _ => rfl)
      (fun _ _ => rfl) client (d.withInfrastructureId id) d.infrastructure_id (World.start s)
    have b := select_deployInfrastructure Call.isWaitForState client d.infrastructure_id
      { d.withInfrastructureId id with edited := false } w1
    have c := select_Read Call.isWaitForState (fun _ => rfl) client
      { d.withInfrastructureId id with edited := false } w2
    rw [hcv] at a
    rw [hdeploy] at b
    rw [hread] at c
    have b' : w2.select Call.isWaitForState = w1.select Call.isWaitForState := by
      simpa [Call.isWaitForState] using b
    exact c.trans (b'.trans a)
  refine ⟨?_, rfl, rfl, rfl, rfl, hwaits⟩
  have he : (d.withInfrastructureId id).edited = true := by
    unfold DeployerData.withInfrastructureId
    split <;> exact hedited
  have hp : (d.withInfrastructureId id).prevent_deploy = false := by
    unfold DeployerData.withInfrastructureId
    split <;> exact hprevent
  unfold resourceInfrastructureDeployerUpdate
  rw [hid]
  simp only [DeployerData.withInfrastructureId] at hcv hdeploy hread he hp ⊢
  generalize (if id ≠ d.infrastructure_id then d.SetId (Itoa d.infrastructure_id) else d) = d0
    at hcv hdeploy hread he hp ⊢
  rw [hcv]
  generalize ({ d0 with edited := false } : DeployerData) = d1 at hdeploy hread ⊢
  simp only [he, hp, Bool.not_false, Bool.and_self, if_true, hdeploy, hread, hok,
    Bool.false_eq_true, if_false, List.nil_append, deployWarning]

theorem resourceInfrastructureDeployerUpdate_deploy_failure_witness :
    Atoi deployerState.Id = Except.ok 5 ∧
    deployerState.edited = true ∧ deployerState.prevent_deploy = false ∧
    (deployInfrastructure rejectingClient 5 { deployerState with edited := false }
      (updateInfrastructureCustomVariables rejectingClient deployerState 5
        (World.start ())).2).1 = some "quota exceeded" ∧
    (resourceInfrastructureDeployerUpdate rejectingClient deployerState
      (World.start ())).1.map (fun r => r.1) = some [deployWarning 5 "quota exceeded"] ∧
    (resourceInfrastructureDeployerUpdate rejectingClient deployerState
      (World.start ())).2.select Call.isWaitForState = [] := by
  have h := resourceInfrastructureDeployerUpdate_deploy_failure rejectingClient ()
    deployerState 5 [] _ _ _ "quota exceeded" [] _ rfl rfl rfl rfl rfl rfl rfl
  refine ⟨rfl, rfl, rfl, rfl, ?_, ?_⟩
  · rw [h.1]; rfl
  · rw [h.1]; exact h.2.2.2.2.2

/-- C8 fails on the code: the check of `keep_infrastructure_on_resource_destroy` is
commented out, so the delete of a state that has it true calls `InfrastructureDelete`. -/
theorem resourceInfrastructureDeployerDelete_ignores_keep :
    deployerState.keep_infrastructure_on_resource_destroy = true ∧
    ((resourceInfrastructureDeployerDelete healthyClient deployerState
      (World.start ())).2.calls.head?).map (fun e => e.1.isInfrastructureDelete) = some true ∧
    ((resourceInfrastructureDeployerDelete healthyClient deployerState
      (World.start ())).2.select Call.isInfrastructureDelete).length = 1 := by
  decide


theorem waitForInfrastructureFinished_deleted {σ : Type} (client : Client σ) (id : Int)
    (d : DeployerData) (timeout : Nat) (w : World σ) :
    ∃ dg, (waitForInfrastructureFinished client id d timeout DEPLOY_STATUS_DELETED w).1
      = some (dg, d) := by
  unfold waitForInfrastructureFinished
  dsimp only
  split
  · exact ⟨_, rfl⟩
  · rw [if_pos rfl]
    exact ⟨_, rfl⟩

theorem HasError_FromErr (err : String) : Diagnostics.HasError (diag.FromErr err) = true := rfl

/-- The deploys of a delete: one call of `InfrastructureDeploy` when `InfrastructureDelete`
succeeded, `prevent_deploy` is false and the service status is "active", none otherwise. -/
theorem resourceInfrastructureDeployerDelete_deploys {σ : Type} (client : Client σ) (s : σ)
    (d : DeployerData) (id : Int) (hid : Atoi d.Id = Except.ok id) :
    (resourceInfrastructureDeployerDelete client d (World.start s)).2.select
        Call.isInfrastructureDeploy =
      if (client.InfrastructureDelete id s).1 = none ∧ d.prevent_deploy = false ∧
          d.infrastructure_service_status = SERVICE_STATUS_ACTIVE then
        [(Call.InfrastructureDeploy id
            { HardShutdownAfterTimeout := d.hard_shutdown_after_timeout
              AttemptSoftShutdown := d.attempt_soft_shutdown
              SoftShutdownTimeoutSeconds := d.soft_shutdown_timeout_seconds }
            d.allow_data_loss d.skip_ansible, d)]
      else [] := by
  have hget : ∀ i, Call.isInfrastructureDeploy (Call.InfrastructureGet i) = false :=
    fun _ => rfl
  have hwait : ∀ t, Call.isInfrastructureDeploy (Call.WaitForState t) = false := fun _ => rfl
  have h1 := select_callInfrastructureDelete Call.isInfrastructureDeploy (fun _ => rfl)
    client d id (World.start s)
  have hfst : (callInfrastructureDelete client d id (World.start s)).1
      = (client.InfrastructureDelete id s).1 := rfl
  unfold resourceInfrastructureDeployerDelete
  rw [hid]
  dsimp only
  split
  · next err w heq =>
    rw [heq] at h1 hfst
    have : ¬ (client.InfrastructureDelete id s).1 = none := by
      rw [← hfst]; simp
    rw [if_neg (fun h => this h.1)]
    exact h1
  · next w heq =>
    rw [heq] at h1 hfst
    have hw : w.select Call.isInfrastructureDeploy = [] := h1
    have hnone : (client.InfrastructureDelete id s).1 = none := hfst.symm
    by_cases hc : d.prevent_deploy = false ∧
        d.infrastructure_service_status = SERVICE_STATUS_ACTIVE
    · rw [if_pos hc, if_pos ⟨hnone, hc⟩]
      have hd := select_deployInfrastructure Call.isInfrastructureDeploy client id d w
      rw [hw] at hd
      simp only [List.nil_append, List.filter_cons, List.filter_nil,
        Call.isInfrastructureDeploy, if_true] at hd
      split
      · next err w2 heq2 => rw [heq2] at hd; exact hd
      · next w2 heq2 =>
        rw [heq2] at hd
        have hwt := select_waitForInfrastructureFinished Call.isInfrastructureDeploy hget
          hwait client id d d.TimeoutUpdate DEPLOY_STATUS_DELETED w2
        split
        · split
          · next w3 heq3 => rw [heq3] at hwt; exact hwt.trans hd
          · next dg3 d3 w3 heq3 =>
            rw [heq3] at hwt
            split <;> exact hwt.trans hd
        · exact hd
    · rw [if_neg hc, if_neg (fun h => hc h.2)]
      exact hw

/-- The result of a delete: it returns, either with no error and the ID cleared, or with
an error and the resource data as it was. -/
theorem resourceInfrastructureDeployerDelete_result {σ : Type} (client : Client σ) (s : σ)
    (d : DeployerData) :
    ∃ diags d', (resourceInfrastructureDeployerDelete client d (World.start s)).1
        = some (diags, d') ∧
      ((diags.HasError = false ∧ d' = d.SetId "") ∨ (diags.HasError = true ∧ d' = d)) := by
  unfold resourceInfrastructureDeployerDelete
  split
  · exact ⟨_, _, rfl, Or.inr ⟨rfl, rfl⟩⟩
  · dsimp only
    split
    · exact ⟨_, _, rfl, Or.inr ⟨rfl, rfl⟩⟩
    · split
      · split
        · exact ⟨_, _, rfl, Or.inr ⟨rfl, rfl⟩⟩
        · next w2 heq2 =>
          split
          · obtain ⟨dg, hdg⟩ := waitForInfrastructureFinished_deleted client _ d
              d.TimeoutUpdate w2
            split
            · next w3 heq3 => rw [heq3] at hdg; cases hdg
            · next dg3 d3 w3 heq3 =>
              rw [heq3] at hdg
              have hd3 : d3 = d := by
                have := Option.some.inj hdg
                exact (Prod.mk.inj this).2
              subst hd3
              split
              · next herr => exact ⟨_, _, rfl, Or.inr ⟨herr, rfl⟩⟩
              · exact ⟨_, _, rfl, Or.inl ⟨rfl, rfl⟩⟩
          · exact ⟨_, _, rfl, Or.inl ⟨rfl, rfl⟩⟩
      · exact ⟨_, _, rfl, Or.inl ⟨rfl, rfl⟩⟩


/-- C9. When the ID is not an integer the delete fails with the error of the conversion
and makes no call. When it is, and `InfrastructureDelete` succeeded, a deploy is started
if and only if `prevent_deploy` is false and the service status is "active". The delete
always returns, with no error and the ID cleared or with an error and the resource data
untouched; so for an integer ID the ID ends empty if and only if no error is returned. -/
theorem resourceInfrastructureDeployerDelete_outcome {σ : Type} (client : Client σ) (s : σ)
    (d : DeployerData) :
    (∀ err, Atoi d.Id = Except.error err →
      resourceInfrastructureDeployerDelete client d (World.start s)
        = (some (diag.FromErr err, d), World.start s)) ∧
    (∀ id, Atoi d.Id = Except.ok id → (client.InfrastructureDelete id s).1 = none →
      ((resourceInfrastructureDeployerDelete client d (World.start s)).2.select
          Call.isInfrastructureDeploy ≠ [] ↔
        (d.prevent_deploy = false ∧ d.infrastructure_service_status = "active"))) ∧
    (∃ diags d', (resourceInfrastructureDeployerDelete client d (World.start s)).1
        = some (diags, d') ∧
      ((diags.HasError = false ∧ d' = d.SetId "") ∨ (diags.HasError = true ∧ d' = d)) ∧
      (∀ id, Atoi d.Id = Except.ok id → (d'.Id = "" ↔ diags.HasError = false))) := by
  refine ⟨?_, ?_, ?_⟩
  · intro err herr
    unfold resourceInfrastructureDeployerDelete
    rw [herr]
  · intro id hid hdel
    rw [resourceInfrastructureDeployerDelete_deploys client s d id hid]
    have hactive : SERVICE_STATUS_ACTIVE = "active" := rfl
    rw [hactive]
    by_cases hc : d.prevent_deploy = false ∧ d.infrastructure_service_status = "active"
    · rw [if_pos ⟨hdel, hc⟩]
      simp [hc]
    · rw [if_neg (fun h => hc h.2)]
      simp [hc]
  · obtain ⟨diags, d', hres, hcase⟩ := resourceInfrastructureDeployerDelete_result client s d
    refine ⟨diags, d', hres, hcase, ?_⟩
    intro id hid
    have hne := Atoi_ok_ne_empty d.Id id hid
    rcases hcase with ⟨hok, hd⟩ | ⟨herr, hd⟩
    · subst hd
      exact ⟨fun _ => hok, fun _ => rfl⟩
    · subst hd
      constructor
      · intro h; exact absurd h hne
      · intro h; rw [herr] at h; cases h

theorem resourceInfrastructureDeployerDelete_outcome_witness :
    Atoi brokenState.Id = Except.error "strconv.Atoi: parsing \"infra-5\": invalid syntax" ∧
    resourceInfrastructureDeployerDelete healthyClient brokenState (World.start ())
      = (some (diag.FromErr "strconv.Atoi: parsing \"infra-5\": invalid syntax", brokenState),
          World.start ()) ∧
    Atoi deployerState.Id = Except.ok 5 ∧
    (healthyClient.InfrastructureDelete 5 ()).1 = none ∧
    ((resourceInfrastructureDeployerDelete healthyClient deployerState (World.start ())).2.select
        Call.isInfrastructureDeploy ≠ [] ↔
      (deployerState.prevent_deploy = false ∧
        deployerState.infrastructure_service_status = "active")) ∧
    Atoi preventedState.Id = Except.ok 5 ∧
    (((resourceInfrastructureDeployerDelete healthyClient preventedState
        (World.start ())).1.map (fun r => r.2.Id)) = some "" ↔
      ((resourceInfrastructureDeployerDelete healthyClient preventedState
        (World.start ())).1.map (fun r => r.1.HasError)) = some false) :=
  ⟨rfl,
    (resourceInfrastructureDeployerDelete_outcome healthyClient () brokenState).1 _ rfl,
    rfl, rfl,
    (resourceInfrastructureDeployerDelete_outcome healthyClient () deployerState).2.1 5 rfl rfl,
    rfl, by decide⟩


/-! ### The refresh step of the wait -/

/-- C12. The refresh step of `waitForInfrastructureFinished`: after a successful
`InfrastructureGet` it reports the deploy status of the infrastructure operation and no
error; after a failed one it reports the target status and no error when the target is
"deleted", and the error of the client otherwise. The pending statuses are "not_started"
and "ongoing", and the only target is the status passed in. -/
theorem waitForInfrastructureFinished_refresh {σ : Type} (client : Client σ)
    (d : DeployerData) (infrastructureID : Int) (timeout : Nat) (targetStatus : String)
    (w : World σ) :
    (∀ resp, (client.InfrastructureGet infrastructureID w.server).1 = Except.ok resp →
      (waitForInfrastructureFinished.Refresh client d infrastructureID targetStatus w).1.state
        = resp.InfrastructureOperation.InfrastructureDeployStatus ∧
      (waitForInfrastructureFinished.Refresh client d infrastructureID targetStatus w).1.err
        = none) ∧
    (∀ err, (client.InfrastructureGet infrastructureID w.server).1 = Except.error err →
      (targetStatus = "deleted" →
        (waitForInfrastructureFinished.Refresh client d infrastructureID targetStatus
          w).1.state = targetStatus ∧
        (waitForInfrastructureFinished.Refresh client d infrastructureID targetStatus
          w).1.err = none) ∧
      (targetStatus ≠ "deleted" →
        (waitForInfrastructureFinished.Refresh client d infrastructureID targetStatus
          w).1.err = some err)) ∧
    (waitForInfrastructureFinished.createStateConf client d infrastructureID timeout
      targetStatus).Pending = ["not_started", "ongoing"] ∧
    (waitForInfrastructureFinished.createStateConf client d infrastructureID timeout
      targetStatus).Target = [targetStatus] ∧
    (waitForInfrastructureFinished.createStateConf client d infrastructureID timeout
      targetStatus).Refresh
      = waitForInfrastructureFinished.Refresh client d infrastructureID targetStatus := by
  have hfst : (callInfrastructureGet client d infrastructureID w).1
      = (client.InfrastructureGet infrastructureID w.server).1 := rfl
  have hdeleted : DEPLOY_STATUS_DELETED = "deleted" := rfl
  refine ⟨?_, ?_, rfl, rfl, rfl⟩
  · intro resp hresp
    unfold waitForInfrastructureFinished.Refresh
    split
    · next err w' heq => rw [heq, hresp] at hfst; cases hfst
    · next resp' w' heq =>
      rw [heq, hresp] at hfst
      cases hfst
      exact ⟨rfl, rfl⟩
  · intro err herr
    unfold waitForInfrastructureFinished.Refresh
    rw [hdeleted]
    split
    · next err' w' heq =>
      rw [heq, herr] at hfst
      cases hfst
      constructor
      · intro ht
        rw [if_pos ht]
        exact ⟨rfl, rfl⟩
      · intro ht
        rw [if_neg ht]
    · next resp' w' heq => rw [heq, herr] at hfst; cases hfst

theorem waitForInfrastructureFinished_refresh_witness :
    (healthyClient.InfrastructureGet 5 (World.start ()).server).1
      = Except.ok activeInfrastructure ∧
    ((waitForInfrastructureFinished.Refresh healthyClient deployerState 5 "finished"
        (World.start ())).1.state = "finished" ∧
      (waitForInfrastructureFinished.Refresh healthyClient deployerState 5 "finished"
        (World.start ())).1.err = none) ∧
    (unreachableClient.InfrastructureGet 5 (World.start ()).server).1
      = Except.error "connection refused" ∧
    ((waitForInfrastructureFinished.Refresh unreachableClient deployerState 5 "deleted"
        (World.start ())).1.state = "deleted" ∧
      (waitForInfrastructureFinished.Refresh unreachableClient deployerState 5 "deleted"
        (World.start ())).1.err = none) ∧
    (waitForInfrastructureFinished.Refresh unreachableClient deployerState 5 "finished"
        (World.start ())).1.err = some "connection refused" :=
  ⟨rfl,
    (waitForInfrastructureFinished_refresh healthyClient deployerState 5 3 "finished"
      (World.start ())).1 activeInfrastructure rfl,
    rfl,
    ((waitForInfrastructureFinished_refresh unreachableClient deployerState 5 3 "deleted"
      (World.start ())).2.1 "connection refused" rfl).1 rfl,
    ((waitForInfrastructureFinished_refresh unreachableClient deployerState 5 3 "finished"
      (World.start ())).2.1 "connection refused" rfl).2 (by decide)⟩


/-! ### The text of an interface determines its fields -/

theorem interfaceToString_eq (lowerCase : Char → Char) (e : SchemaMap) (index id : Int)
    (label : String) (hindex : e "interface_index" = some (Value.int index))
    (hid : e "network_id" = some (Value.int id))
    (hlabel : e "network_label" = some (Value.str label)) :
    interfaceToString lowerCase e
      = some (ToLower lowerCase label ++ "-" ++ Itoa index ++ "-" ++ Itoa id ++ "-") := by
  have hstr : ∀ a b c : String,
      "" ++ (a ++ "-") ++ (b ++ "-") ++ (c ++ "-") = a ++ "-" ++ b ++ "-" ++ c ++ "-" := by
    intro a b c
    apply String.ext
    simp only [String.data_append, List.append_assoc]
    rfl
  simp only [interfaceToString, hindex, hid, hlabel, assertInt, assertString,
    Option.map_some', Option.bind_eq_bind, Option.some_bind, Option.pure_def, ToLower_Itoa,
    hstr]

theorem toDigitsCore_forall (P : Char → Prop) (hP : ∀ k, k < 10 → P (Nat.digitChar k))
    (fuel n : Nat) (ds : List Char) (hds : ∀ c ∈ ds, P c) :
    ∀ c ∈ Nat.toDigitsCore 10 fuel n ds, P c := by
  induction fuel generalizing n ds with
  | zero => simpa [Nat.toDigitsCore] using hds
  | succ fuel ih =>
    have hcons : ∀ c ∈ Nat.digitChar (n % 10) :: ds, P c := by
      intro c hc
      rcases List.mem_cons.mp hc with rfl | hc
      · exact hP _ (Nat.mod_lt _ (by norm_num))
      · exact hds c hc
    simp only [Nat.toDigitsCore]
    split
    · exact hcons
    · exact ih _ _ hcons

theorem minus_not_mem_repr (n : Nat) : '-' ∉ (Nat.repr n).data := by
  intro h
  have hall := toDigitsCore_forall (fun c => c ≠ '-')
    (by intro k hk; interval_cases k <;> decide) (n + 1) n [] (by simp)
  exact hall '-' h rfl

theorem digitValue_digitChar (k : Nat) (hk : k < 10) :
    (Nat.digitChar k).toNat - '0'.toNat = k := by
  interval_cases k <;> rfl

theorem foldl_toDigitsCore (fuel n : Nat) (ds : List Char) (hfuel : n < fuel) :
    (Nat.toDigitsCore 10 fuel n ds).foldl (fun a c => a * 10 + (c.toNat - '0'.toNat)) 0
      = ds.foldl (fun a c => a * 10 + (c.toNat - '0'.toNat)) n := by
  induction fuel generalizing n ds with
  | zero => omega
  | succ fuel ih =>
    simp only [Nat.toDigitsCore]
    split
    · next h0 =>
      rw [List.foldl_cons, digitValue_digitChar _ (Nat.mod_lt _ (by norm_num))]
      congr 1
      omega
    · next h0 =>
      rw [ih (n / 10) _ (by omega), List.foldl_cons,
        digitValue_digitChar _ (Nat.mod_lt _ (by norm_num))]
      congr 1
      omega

theorem repr_injective (m n : Nat) (h : Nat.repr m = Nat.repr n) : m = n := by
  have hm := foldl_toDigitsCore (m + 1) m [] (Nat.lt_succ_self m)
  have hn := foldl_toDigitsCore (n + 1) n [] (Nat.lt_succ_self n)
  have hdata : Nat.toDigits 10 m = Nat.toDigits 10 n := by
    have := congrArg String.data h
    simpa [Nat.repr, List.asString] using this
  simp only [Nat.toDigits] at hdata
  rw [hdata] at hm
  simpa using hm.symm.trans hn

theorem split_at_minus (xs xs' ys ys' : List Char) (hx : '-' ∉ xs) (hx' : '-' ∉ xs')
    (h : xs ++ '-' :: ys = xs' ++ '-' :: ys') : xs = xs' ∧ ys = ys' := by
  induction xs generalizing xs' with
  | nil =>
    cases xs' with
    | nil => simpa using h
    | cons c cs =>
      simp only [List.nil_append, List.cons_append, List.cons.injEq] at h
      exact absurd (h.1 ▸ List.mem_cons_self _ _) hx'
  | cons a as ih =>
    cases xs' with
    | nil =>
      simp only [List.nil_append, List.cons_append, List.cons.injEq] at h
      exact absurd (h.1 ▸ List.mem_cons_self _ _) hx
    | cons c cs =>
      simp only [List.cons_append, List.cons.injEq] at h
      obtain ⟨hxs, hys⟩ := ih cs (fun hm => hx (List.mem_cons_of_mem _ hm))
        (fun hm => hx' (List.mem_cons_of_mem _ hm)) h.2
      exact ⟨by rw [h.1, hxs], hys⟩

theorem text_fields (a a' : String) (m n m' n' : Nat)
    (h : a ++ "-" ++ Nat.repr m ++ "-" ++ Nat.repr n ++ "-"
      = a' ++ "-" ++ Nat.repr m' ++ "-" ++ Nat.repr n' ++ "-") :
    a = a' ∧ m = m' ∧ n = n' := by
  have hd := congrArg (fun s => s.data.reverse) h
  have hminus : ("-" : String).data = ['-'] := rfl
  simp only [String.data_append, List.reverse_append, hminus, List.reverse_cons,
    List.reverse_nil, List.nil_append, List.append_assoc, List.singleton_append,
    List.cons_append, List.cons.injEq, true_and] at hd
  have hrev : ∀ k : Nat, '-' ∉ (Nat.repr k).data.reverse := fun k hk =>
    minus_not_mem_repr k (List.mem_reverse.mp hk)
  obtain ⟨hn, hrest⟩ := split_at_minus _ _ _ _ (hrev n) (hrev n') hd
  obtain ⟨hm, ha⟩ := split_at_minus _ _ _ _ (hrev m) (hrev m') hrest
  refine ⟨?_, ?_, ?_⟩
  · exact String.ext (List.reverse_injective ha)
  · exact repr_injective _ _ (String.ext (List.reverse_injective hm))
  · exact repr_injective _ _ (String.ext (List.reverse_injective hn))

/-- C11. Two interface elements with the same index, the same network ID and labels with
the same lower-casing have the same `interfaceResourceHash`, whatever else the maps hold;
and when the indexes and network IDs are not negative, equal texts of `interfaceToString`
force equal indexes, equal network IDs and labels with the same lower-casing. -/
theorem interfaceResourceHash_identity (lowerCase : Char → Char) (e e' : SchemaMap)
    (index id index' id' : Int) (label label' : String)
    (hindex : e "interface_index" = some (Value.int index))
    (hid : e "network_id" = some (Value.int id))
    (hlabel : e "network_label" = some (Value.str label))
    (hindex' : e' "interface_index" = some (Value.int index'))
    (hid' : e' "network_id" = some (Value.int id'))
    (hlabel' : e' "network_label" = some (Value.str label')) :
    (index = index' → id = id' → ToLower lowerCase label = ToLower lowerCase label' →
      interfaceResourceHash lowerCase e = interfaceResourceHash lowerCase e') ∧
    (0 ≤ index → 0 ≤ id → 0 ≤ index' → 0 ≤ id' →
      interfaceToString lowerCase e = interfaceToString lowerCase e' →
      index = index' ∧ id = id' ∧ ToLower lowerCase label = ToLower lowerCase label') := by
  have hs := interfaceToString_eq lowerCase e index id label hindex hid hlabel
  have hs' := interfaceToString_eq lowerCase e' index' id' label' hindex' hid' hlabel'
  constructor
  · intro h1 h2 h3
    unfold interfaceResourceHash
    rw [hs, hs', h1, h2, h3]
  · intro h1 h2 h3 h4 heq
    rw [hs, hs'] at heq
    have heq' := Option.some.inj heq
    obtain ⟨m, rfl⟩ := Int.eq_ofNat_of_zero_le h1
    obtain ⟨n, rfl⟩ := Int.eq_ofNat_of_zero_le h2
    obtain ⟨m', rfl⟩ := Int.eq_ofNat_of_zero_le h3
    obtain ⟨n', rfl⟩ := Int.eq_ofNat_of_zero_le h4
    have hI : ∀ k : Nat, Itoa (k : Int) = Nat.repr k := fun _ => rfl
    rw [hI, hI, hI, hI] at heq'
    obtain ⟨ha, hm, hn⟩ := text_fields _ _ _ _ _ _ heq'
    exact ⟨by rw [hm], by rw [hn], ha⟩

theorem interfaceResourceHash_identity_witness :
    (interfaceResourceHash id wanInterfaceMap = interfaceResourceHash id wanInterfaceMapLower) ∧
    interfaceToString id wanInterfaceMap = interfaceToString id wanInterfaceMapLower ∧
    ((1 : Int) = 1 ∧ (5 : Int) = 5 ∧ ToLower id "WAN" = ToLower id "wan") :=
  ⟨(interfaceResourceHash_identity id wanInterfaceMap wanInterfaceMapLower 1 5 1 5 "WAN" "wan"
      rfl rfl rfl rfl rfl rfl).1 rfl rfl (by decide),
    by decide,
    (interfaceResourceHash_identity id wanInterfaceMap wanInterfaceMapLower 1 5 1 5 "WAN" "wan"
      rfl rfl rfl rfl rfl rfl).2 (by decide) (by decide) (by decide) (by decide) (by decide)⟩


/-! ### The instances in the order of their IDs -/

theorem flattenInstances_loop (l : List (String × Instance))
    (st : IntMap Instance × List Int) :
    l.foldl
      (fun (st : IntMap Instance × List Int) kv =>
        let v := kv.2
        (st.1.set v.InstanceID v, st.2 ++ [v.InstanceID])) st
      = (l.foldl (fun m kv => m.set kv.2.InstanceID kv.2) st.1,
          st.2 ++ l.map (fun kv => kv.2.InstanceID)) := by
  induction l generalizing st with
  | nil => simp
  | cons kv l ih => simp [ih]

theorem build_not_mem (l : List (String × Instance)) (m : IntMap Instance) (id : Int)
    (h : id ∉ l.map (fun kv => kv.2.InstanceID)) :
    l.foldl (fun m kv => m.set kv.2.InstanceID kv.2) m id = m id := by
  induction l generalizing m with
  | nil => rfl
  | cons kv l ih =>
    simp only [List.map_cons, List.mem_cons, not_or] at h
    rw [List.foldl_cons, ih _ h.2]
    simp [IntMap.set, h.1]

theorem build_mem (l : List (String × Instance)) (m : IntMap Instance)
    (hnodup : (l.map (fun kv => kv.2.InstanceID)).Nodup) (v : Instance)
    (hv : v ∈ l.map (fun kv => kv.2)) :
    l.foldl (fun m kv => m.set kv.2.InstanceID kv.2) m v.InstanceID = some v := by
  induction l generalizing m with
  | nil => simp at hv
  | cons kv l ih =>
    simp only [List.map_cons, List.nodup_cons] at hnodup
    simp only [List.map_cons, List.mem_cons] at hv
    rw [List.foldl_cons]
    rcases hv with rfl | hv
    · rw [build_not_mem l _ _ hnodup.1]
      simp [IntMap.set]
    · exact ih _ hnodup.2 hv

theorem flattenInstances_instances_eq (l : List (String × Instance)) :
    flattenInstances.instances l =
      (sortInts (l.map (fun kv => kv.2.InstanceID))).map
        (fun id => ((l.foldl (fun m kv => m.set kv.2.InstanceID kv.2)
          (IntMap.empty : IntMap Instance)) id).getD Instance.zero) := by
  unfold flattenInstances.instances
  simp only [flattenInstances_loop, List.nil_append]
  rw [foldl_append_singleton]
  rfl

theorem lookup_of_mem (l : List (String × Instance))
    (hnodup : (l.map (fun kv => kv.2.InstanceID)).Nodup) (v : Instance)
    (hv : v ∈ l.map (fun kv => kv.2)) :
    ((l.foldl (fun m kv => m.set kv.2.InstanceID kv.2)
      (IntMap.empty : IntMap Instance)) v.InstanceID).getD Instance.zero = v := by
  rw [build_mem l _ hnodup v hv]
  rfl

theorem ids_eq_map (l : List (String × Instance)) :
    l.map (fun kv => kv.2.InstanceID)
      = (l.map (fun kv => kv.2)).map (fun v => v.InstanceID) := by
  rw [List.map_map]
  rfl


/-- C13. For a map of instances with pairwise distinct IDs, the slice that
`flattenInstances` serializes is a permutation of the values of the map, in strictly
increasing order of the IDs and as long as the map; a map with the same values under other
keys, visited in another order, gives the same slice and the same result. -/
theorem flattenInstances_sorted (Marshal : List Instance → Except String String)
    (retInstances retInstances' : List (String × Instance))
    (hdistinct : (retInstances.map (fun kv => kv.2.InstanceID)).Nodup)
    (hvalues : (retInstances'.map (fun kv => kv.2)).Perm (retInstances.map (fun kv => kv.2))) :
    (flattenInstances.instances retInstances).Perm (retInstances.map (fun kv => kv.2)) ∧
    (flattenInstances.instances retInstances).Pairwise
      (fun a b => a.InstanceID < b.InstanceID) ∧
    (flattenInstances.instances retInstances).length = retInstances.length ∧
    flattenInstances.instances retInstances' = flattenInstances.instances retInstances ∧
    flattenInstances Marshal retInstances' = flattenInstances Marshal retInstances := by
  have hsortperm : (sortInts (retInstances.map (fun kv => kv.2.InstanceID))).Perm
      (retInstances.map (fun kv => kv.2.InstanceID)) := List.perm_insertionSort _ _
  have hmemid : ∀ id ∈ sortInts (retInstances.map (fun kv => kv.2.InstanceID)),
      ∃ v ∈ retInstances.map (fun kv => kv.2), v.InstanceID = id := by
    intro id hid
    have := hsortperm.subset hid
    rw [ids_eq_map] at this
    obtain ⟨v, hv, rfl⟩ := List.mem_map.mp this
    exact ⟨v, hv, rfl⟩
  have hperm : (flattenInstances.instances retInstances).Perm
      (retInstances.map (fun kv => kv.2)) := by
    rw [flattenInstances_instances_eq]
    refine (hsortperm.map _).trans ?_
    rw [ids_eq_map, List.map_map]
    have : ∀ v ∈ retInstances.map (fun kv => kv.2),
        ((fun id => ((retInstances.foldl (fun m kv => m.set kv.2.InstanceID kv.2)
          (IntMap.empty : IntMap Instance)) id).getD Instance.zero) ∘
            (fun v => v.InstanceID)) v = id v :=
      fun v hv => lookup_of_mem retInstances hdistinct v hv
    rw [List.map_congr_left this, List.map_id]
  have hids : (flattenInstances.instances retInstances).map (fun v => v.InstanceID)
      = sortInts (retInstances.map (fun kv => kv.2.InstanceID)) := by
    rw [flattenInstances_instances_eq, List.map_map]
    have : ∀ k ∈ sortInts (retInstances.map (fun kv => kv.2.InstanceID)),
        ((fun v : Instance => v.InstanceID) ∘
          (fun k => ((retInstances.foldl (fun m kv => m.set kv.2.InstanceID kv.2)
            (IntMap.empty : IntMap Instance)) k).getD Instance.zero)) k = id k := by
      intro k hk
      obtain ⟨v, hv, rfl⟩ := hmemid k hk
      simp only [Function.comp, lookup_of_mem retInstances hdistinct v hv, id_eq]
    rw [List.map_congr_left this, List.map_id]
  have hsorted : (flattenInstances.instances retInstances).Pairwise
      (fun a b => a.InstanceID < b.InstanceID) := by
    have hle : (sortInts (retInstances.map (fun kv => kv.2.InstanceID))).Sorted (· ≤ ·) :=
      List.sorted_insertionSort _ _
    have hnd : (sortInts (retInstances.map (fun kv => kv.2.InstanceID))).Nodup :=
      hsortperm.nodup_iff.mpr hdistinct
    have hlt := hle.lt_of_le hnd
    rw [← hids] at hlt
    exact List.pairwise_map.mp hlt
  have hidsperm : (retInstances'.map (fun kv => kv.2.InstanceID)).Perm
      (retInstances.map (fun kv => kv.2.InstanceID)) := by
    rw [ids_eq_map, ids_eq_map]
    exact hvalues.map _
  have hdistinct' : (retInstances'.map (fun kv => kv.2.InstanceID)).Nodup :=
    hidsperm.nodup_iff.mpr hdistinct
  have hkeys : sortInts (retInstances'.map (fun kv => kv.2.InstanceID))
      = sortInts (retInstances.map (fun kv => kv.2.InstanceID)) := by
    apply List.eq_of_perm_of_sorted (r := (· ≤ ·))
    · exact ((List.perm_insertionSort _ _).trans hidsperm).trans
        (List.perm_insertionSort _ _).symm
    · exact List.sorted_insertionSort _ _
    · exact List.sorted_insertionSort _ _
  have hsame : flattenInstances.instances retInstances'
      = flattenInstances.instances retInstances := by
    rw [flattenInstances_instances_eq, flattenInstances_instances_eq, hkeys]
    apply List.map_congr_left
    intro id hid
    obtain ⟨v, hv, rfl⟩ := hmemid id hid
    rw [lookup_of_mem retInstances hdistinct v hv,
      lookup_of_mem retInstances' hdistinct' v (hvalues.symm.subset hv)]
  refine ⟨hperm, hsorted, ?_, hsame, ?_⟩
  · rw [hperm.length_eq, List.length_map]
  · unfold flattenInstances
    rw [hsame]

theorem flattenInstances_sorted_witness :
    (threeInstances.map (fun kv => kv.2.InstanceID)).Nodup ∧
    (threeInstancesRekeyed.map (fun kv => kv.2)).Perm (threeInstances.map (fun kv => kv.2)) ∧
    (flattenInstances.instances threeInstances).Perm (threeInstances.map (fun kv => kv.2)) ∧
    (flattenInstances.instances threeInstances).Pairwise
      (fun a b => a.InstanceID < b.InstanceID) ∧
    (flattenInstances.instances threeInstances).length = threeInstances.length ∧
    flattenInstances.instances threeInstancesRekeyed
      = flattenInstances.instances threeInstances ∧
    flattenInstances (fun _ => Except.ok "[]") threeInstancesRekeyed
      = flattenInstances (fun _ => Except.ok "[]") threeInstances :=
  have hnodup : (threeInstances.map (fun kv => kv.2.InstanceID)).Nodup := by decide
  have hperm : (threeInstancesRekeyed.map (fun kv => kv.2)).Perm
      (threeInstances.map (fun kv => kv.2)) :=
    (List.Perm.swap (plainInstance 30 "c") (plainInstance 20 "b") [plainInstance 10 "a"]).trans
      (List.Perm.cons (plainInstance 30 "c")
        (List.Perm.swap (plainInstance 10 "a") (plainInstance 20 "b") []))
  ⟨hnodup, hperm,
    flattenInstances_sorted (fun _ => Except.ok "[]") threeInstances threeInstancesRekeyed
      hnodup hperm⟩


end Metalcloud
